import Mathlib

/-!
# CvScaler (supercell/cv_scaler.h, supercell/cv_scaler.cc)

A shallow embedding of the control-voltage scaler of the firmware.

Conventions of the embedding.

* `float` is modelled by exact rational arithmetic (`ℚ`): no rounding, no NaN,
  no infinities.  Decimal constants of the source (`0.004f`, `0.5f`, ...) are
  the exact decimals.  Where a property hinges on rounding (the smoothing
  trajectory, the dry/wet midpoint) the lines concerned are given again with
  binary32 rounding (`f32`, `smooth_step_fl`, `dry_wet_fl`).
* C arrays are total maps `ℕ → α`; a store `a[i] = v` is `Function.update a i v`.
  Every index the code computes for `smoothed_adc_value_`, `transformations_`,
  `previous_capture_` and `previous_gate_` is inside the array.
* The driver objects `adc_`, `pots_adc_` and `gate_input_` are hardware
  front-ends: what they return is an input of each operation.  `Adc` is the
  set of latched conversion results at the time of the call, `PotsAdc` the
  result of `Scan()`, `GateInput` the result of `gate_input_.Read()`.
* `calibration_data_` is a pointer to a record owned by the settings; it is
  embedded as a field holding the record.
* `Parameters*` is an in/out argument: `Read` receives the previous record and
  returns the updated one.
-/

namespace clouds

/-! ## Channel enumerations -/

/-- Modelled from the spec: `enum AdcChannel` (supercell/drivers/adc.h) is not
among the sources.  The enumerators are the ones `cv_scaler.cc` uses, in the
order given by the comments of the initializer of `transformations_`
(cv_scaler.cc lines 54-78): twelve CV-type channels. -/
abbrev ADC_POSITION_CV : ℕ := 0
abbrev ADC_DENSITY_CV : ℕ := 1
abbrev ADC_GRAIN_POTENTIOMETER : ℕ := 2
abbrev ADC_GRAIN_CV : ℕ := 3
abbrev ADC_PITCH_CV : ℕ := 4
abbrev ADC_SPREAD_CV : ℕ := 5
abbrev ADC_FEEDBACK_CV : ℕ := 6
abbrev ADC_REVERB_CV : ℕ := 7
abbrev ADC_BALANCE_CV : ℕ := 8
abbrev ADC_TEXTURE_CV : ℕ := 9
abbrev ADC_VOCT_CV : ℕ := 10
abbrev ADC_VCA_OUT_LEVEL : ℕ := 11
abbrev ADC_CHANNEL_LAST : ℕ := 12

/-- Modelled from the spec: `enum AdcChannelPotentiometer`
(supercell/drivers/pots_adc.h) is not among the sources.  The order is the one
of the comments of the initializer of `transformations_`
(cv_scaler.cc lines 79-94): eight potentiometer channels. -/
abbrev ADC_POSITION_POTENTIOMETER : ℕ := 0
abbrev ADC_PITCH_POTENTIOMETER : ℕ := 1
abbrev ADC_DENSITY_POTENTIOMETER : ℕ := 2
abbrev ADC_TEXTURE_POTENTIOMETER : ℕ := 3
abbrev ADC_BALANCE_POTENTIOMETER : ℕ := 4
abbrev ADC_SPREAD_POTENTIOMETER : ℕ := 5
abbrev ADC_FEEDBACK_POTENTIOMETER : ℕ := 6
abbrev ADC_REVERB_POTENTIOMETER : ℕ := 7
abbrev ADC_CHANNEL_POTENTIOMETER_LAST : ℕ := 8

/-- The macro `ADC_CHANNELS_TOTAL` (cv_scaler.h line 59). -/
abbrev ADC_CHANNELS_TOTAL : ℕ := ADC_CHANNEL_LAST + ADC_CHANNEL_POTENTIOMETER_LAST

/-- The constant `pitch_pot` (cv_scaler.cc line 51). -/
abbrev pitch_pot : ℕ := ADC_CHANNEL_LAST + ADC_PITCH_POTENTIOMETER

/-- The constant `kAdcLatency` (cv_scaler.h line 125). -/
abbrev kAdcLatency : ℕ := 5

/-! ## stmlib helpers -/

/-- Modelled from the spec: the macro `CONSTRAIN(var, min, max)` of stmlib is not
among the sources; the spec calls it a clamp of `var` to `[min, max]`.  It
returns the new value of `var`. -/
def CONSTRAIN (var min max : ℚ) : ℚ :=
  if var < min then min else if var > max then max else var

/-- Modelled from the spec: the macro `ONE_POLE(out, in, coefficient)` of stmlib
is not among the sources; the glossary gives `y += α(x − y)`.  It returns the new
value of `out`. -/
def ONE_POLE (out inp coefficient : ℚ) : ℚ :=
  out + coefficient * (inp - out)

/-- The C cast `(int)x` of a float: truncation toward zero. -/
def int_cast (x : ℚ) : ℤ :=
  if 0 ≤ x then ⌊x⌋ else ⌈x⌉

/-- Modelled from the spec: `stmlib::Interpolate(table, index, size)` is not among
the sources; the spec calls it a lookup with interpolation: the two table
entries around `index * size` are blended linearly by the fractional part. -/
def Interpolate (table : ℕ → ℚ) (index size : ℚ) : ℚ :=
  let index := index * size
  let index_integral := int_cast index
  let index_fractional := index - index_integral
  let a := table index_integral.toNat
  let b := table (index_integral.toNat + 1)
  a + (b - a) * index_fractional

/-! ## Data model -/

/-- The dejitter filter `CirrusExpFltr` (cv_scaler.h lines 43-57). -/
structure CirrusExpFltr where
  sum : ℚ

/-- The method `CirrusExpFltr::process`: the new filter state and the returned
value. -/
def CirrusExpFltr.process (f : CirrusExpFltr) (input : ℚ) : CirrusExpFltr × ℚ :=
  let sum := (f.sum * 98 + input) / 99
  ({ sum := sum }, sum)

/-- The record `CvTransformation` (cv_scaler.h lines 61-65). -/
structure CvTransformation where
  flip : Bool
  remove_offset : Bool
  filter_coefficient : ℚ

/-- Modelled from the spec: `CalibrationData` (supercell/settings.h) is not among
the sources; it holds the per-channel offset array and the two floats of the
V/oct fit. -/
structure CalibrationData where
  pitch_offset : ℚ
  pitch_scale : ℚ
  offset : ℕ → ℚ

/-- Modelled from the spec: the CV-bank driver `Adc` (supercell/drivers/adc.h) is
not among the sources; it exposes one normalized reading per channel. -/
structure Adc where
  float_value : ℕ → ℚ

/-- Modelled from the spec: the potentiometer-bank driver `PotsAdc`
(supercell/drivers/pots_adc.h) is not among the sources; after `Scan()` it
exposes one normalized reading per potentiometer. -/
structure PotsAdc where
  float_value : ℕ → ℚ

/-- Modelled from the spec: the gate driver `GateInput`
(supercell/drivers/gate_input.h) is not among the sources; after `Read()` it
exposes the gate level and the edges of the freeze and capture lines. -/
structure GateInput where
  freeze_rising_edge : Bool
  freeze_falling_edge : Bool
  capture_rising_edge : Bool
  gate : Bool

/-- The fields of `Parameters::kammerl` that `Read` writes. -/
structure Kammerl where
  slice_selection : ℚ
  slice_modulation : ℚ
  size_modulation : ℚ
  probability : ℚ
  clock_divider : ℚ
  pitch_mode : ℚ
  distortion : ℚ
  pitch : ℚ

/-- Modelled from the spec: `Parameters` (supercell/dsp/parameters.h) is not among
the sources; these are the fields `Read` writes. -/
structure Parameters where
  position : ℚ
  size : ℚ
  pitch : ℚ
  density : ℚ
  texture : ℚ
  dry_wet : ℚ
  stereo_spread : ℚ
  feedback : ℚ
  reverb : ℚ
  freeze : Bool
  capture : Bool
  gate : Bool
  kammerl : Kammerl

/-- The data members of `CvScaler` (cv_scaler.h lines 127-148), the three driver
objects apart. -/
structure CvScaler where
  calibration_data_ : CalibrationData
  capture_button_flag_ : Bool
  smoothed_adc_value_ : ℕ → ℚ
  note_ : ℚ
  cv_c1_ : ℚ
  output_level_ : ℚ
  previous_capture_ : ℕ → Bool
  previous_gate_ : ℕ → Bool
  pitch_cv_used_ : Bool
  voct_cv_used_ : Bool
  voct_cv_quantized_ : Bool
  voct_cv_dejittered_ : Bool
  quantize_dejitter_ : CirrusExpFltr
  pot_dejitter_ : CirrusExpFltr

/-- The table `CvScaler::transformations_` (cv_scaler.cc lines 53-95).  `CV_FLIP`
is the build-time macro: `true` when `MICROCELL` is defined, `false` otherwise. -/
def transformations_ (CV_FLIP : Bool) : List CvTransformation := [
  -- ADC_POSITION_CV
  ⟨CV_FLIP, true, 0.05⟩,
  -- ADC_DENSITY_CV
  ⟨CV_FLIP, true, 0.01⟩,
  -- ADC_SIZE_GRAIN_POTENTIOMETER
  ⟨false, false, 0.01⟩,
  -- ADC_SIZE_GRAIN_CV
  ⟨CV_FLIP, true, 0.1⟩,
  -- ADC_PITCH_CV
  ⟨CV_FLIP, true, 0.90⟩,
  -- ADC_SPREAD_CV
  ⟨CV_FLIP, true, 0.2⟩,
  -- ADC_FEEDBACK_CV
  ⟨CV_FLIP, true, 0.2⟩,
  -- ADC_REVERB_CV
  ⟨CV_FLIP, true, 0.2⟩,
  -- ADC_BALANCE_CV
  ⟨CV_FLIP, true, 0.2⟩,
  -- ADC_TEXTURE_CV
  ⟨CV_FLIP, true, 0.01⟩,
  -- ADC_CV_VOCT
  ⟨CV_FLIP, false, 1.0⟩,
  -- ADC_VCA_OUT_LEVEL
  ⟨false, false, 0.1⟩,
  -- ADC_POSITION_POTENTIOMETER
  ⟨false, false, 0.05⟩,
  -- ADC_PITCH_POTENTIOMETER
  ⟨false, false, 0.01⟩,
  -- ADC_DENSITY_POTENTIOMETER
  ⟨false, false, 0.01⟩,
  -- ADC_TEXTURE_POTENTIOMETER
  ⟨false, false, 0.01⟩,
  -- ADC_BALANCE_POTENTIOMETER
  ⟨false, false, 1.00⟩,
  -- ADC_SPREAD_POTENTIOMETER
  ⟨false, false, 0.05⟩,
  -- ADC_FEEDBACK_POTENTIOMETER
  ⟨false, false, 0.05⟩,
  -- ADC_REVERB_POTENTIOMETER
  ⟨false, false, 0.05⟩]

/-- The access `transformations_[i]`. -/
def transformation (CV_FLIP : Bool) (i : ℕ) : CvTransformation :=
  (transformations_ CV_FLIP).getD i ⟨false, false, 0⟩

/-! ## Cold path: initialisation, mode setters, calibration -/

/-- The method `CvScaler::Init` (cv_scaler.cc lines 98-113).  Members it does not
assign (`capture_button_flag_`, `cv_c1_`, `output_level_`, the two filters) keep
their value. -/
def Init (s : CvScaler) (calibration_data : CalibrationData) : CvScaler :=
  { s with
    calibration_data_ := calibration_data
    pitch_cv_used_ := true
    voct_cv_used_ := true
    voct_cv_quantized_ := false
    voct_cv_dejittered_ := false
    smoothed_adc_value_ := fun i => if i < ADC_CHANNELS_TOTAL then 0 else s.smoothed_adc_value_ i
    note_ := 0
    previous_capture_ := fun i => if i < kAdcLatency then false else s.previous_capture_ i
    previous_gate_ := fun i => if i < kAdcLatency then false else s.previous_gate_ i }

/-- The method `CvScaler::CalibrateC1` (cv_scaler.h lines 75-77). -/
def CalibrateC1 (adc_ : Adc) (s : CvScaler) : CvScaler :=
  { s with cv_c1_ := adc_.float_value ADC_VOCT_CV }

/-- The loop of `CvScaler::CalibrateOffsets`: its first `n` iterations. -/
def CalibrateOffsets_loop (adc_ : Adc) : ℕ → (ℕ → ℚ) → (ℕ → ℚ)
  | 0, offset => offset
  | i + 1, offset =>
    Function.update (CalibrateOffsets_loop adc_ i offset) i (adc_.float_value i)

/-- The method `CvScaler::CalibrateOffsets` (cv_scaler.h lines 79-83). -/
def CalibrateOffsets (adc_ : Adc) (s : CvScaler) : CvScaler :=
  { s with
    calibration_data_ :=
      { s.calibration_data_ with
        offset := CalibrateOffsets_loop adc_ ADC_CHANNELS_TOTAL s.calibration_data_.offset } }

/-- The method `CvScaler::CalibrateC3` (cv_scaler.h lines 85-97): the new state
and the returned boolean. -/
def CalibrateC3 (adc_ : Adc) (s : CvScaler) : CvScaler × Bool :=
  let c3 := adc_.float_value ADC_VOCT_CV
  let c1 := s.cv_c1_
  let delta := c3 - c1
  if delta > -0.5 ∧ delta < -0.0 then
    let pitch_scale := 24.0 / (c3 - c1)
    ({ s with
       calibration_data_ :=
         { s.calibration_data_ with
           pitch_scale := pitch_scale
           pitch_offset := 12.0 - pitch_scale * c1 } }, true)
  else
    (s, false)

/-- The method `CvScaler::set_capture_flag` (cv_scaler.h lines 107-109). -/
def set_capture_flag (s : CvScaler) : CvScaler :=
  { s with capture_button_flag_ := true }

/-- The method `CvScaler::output_level` (cv_scaler.h lines 111-114). -/
def output_level (s : CvScaler) : ℚ :=
  s.output_level_ * s.output_level_

/-- The method `CvScaler::pan_pot` (cv_scaler.h lines 116-118). -/
def pan_pot (s : CvScaler) : ℚ :=
  s.smoothed_adc_value_ (ADC_CHANNEL_LAST + ADC_SPREAD_POTENTIOMETER)

/-- The method `CvScaler::set_pitch_cv_used`. -/
def set_pitch_cv_used (s : CvScaler) (on_off : Bool) : CvScaler :=
  { s with pitch_cv_used_ := on_off }

/-- The method `CvScaler::set_voct_cv_used`. -/
def set_voct_cv_used (s : CvScaler) (on_off : Bool) : CvScaler :=
  { s with voct_cv_used_ := on_off }

/-- The method `CvScaler::set_voct_cv_quantized`. -/
def set_voct_cv_quantized (s : CvScaler) (on_off : Bool) : CvScaler :=
  { s with voct_cv_quantized_ := on_off }

/-- The method `CvScaler::set_voct_cv_dejittered`. -/
def set_voct_cv_dejittered (s : CvScaler) (on_off : Bool) : CvScaler :=
  { s with voct_cv_dejittered_ := on_off }

/-! ## Hot path: `CvScaler::Read` -/

/-- The raw reading `Read` fetches for channel `i` (cv_scaler.cc lines 121-129). -/
def raw_value (adc_ : Adc) (pots_adc_ : PotsAdc) (i : ℕ) : ℚ :=
  if i < ADC_CHANNEL_LAST then
    adc_.float_value i
  else
    pots_adc_.float_value (i - ADC_CHANNEL_LAST)

/-- The value fed to the smoother of channel `i`: the raw reading after flip and
offset removal (cv_scaler.cc lines 120-137). -/
def transformed_value (CV_FLIP : Bool) (adc_ : Adc) (pots_adc_ : PotsAdc)
    (calibration_data_ : CalibrationData) (i : ℕ) : ℚ :=
  let transformation := transformation CV_FLIP i
  let value := raw_value adc_ pots_adc_ i
  let value := if transformation.flip then 1.0 - value else value
  let value := if transformation.remove_offset then value - calibration_data_.offset i else value
  value

/-- The acquisition loop of `Read` (cv_scaler.cc lines 118-139): its first `n`
iterations, applied to `smoothed_adc_value_`.  The update of line 138 is evaluated
exactly here; `smooth_step_fl f32` is the same update with binary32 rounding. -/
def smooth_loop (CV_FLIP : Bool) (adc_ : Adc) (pots_adc_ : PotsAdc)
    (calibration_data_ : CalibrationData) : ℕ → (ℕ → ℚ) → (ℕ → ℚ)
  | 0, smoothed_adc_value_ => smoothed_adc_value_
  | i + 1, smoothed_adc_value_ =>
    let smoothed_adc_value_ := smooth_loop CV_FLIP adc_ pots_adc_ calibration_data_ i smoothed_adc_value_
    let value := transformed_value CV_FLIP adc_ pots_adc_ calibration_data_ i
    Function.update smoothed_adc_value_ i
      (smoothed_adc_value_ i +
        (transformation CV_FLIP i).filter_coefficient * (value - smoothed_adc_value_ i))

/-- The dejitter stage of `Read` (cv_scaler.cc lines 140-144): the two filters and
the smoothed values after it. -/
def dejitter_stage (voct_cv_dejittered_ : Bool) (quantize_dejitter_ pot_dejitter_ : CirrusExpFltr)
    (smoothed_adc_value_ : ℕ → ℚ) : CirrusExpFltr × CirrusExpFltr × (ℕ → ℚ) :=
  if voct_cv_dejittered_ then
    let q := quantize_dejitter_.process (smoothed_adc_value_ ADC_VOCT_CV)
    let smoothed_adc_value_ := Function.update smoothed_adc_value_ ADC_VOCT_CV q.2
    let p := pot_dejitter_.process (smoothed_adc_value_ pitch_pot)
    let smoothed_adc_value_ := Function.update smoothed_adc_value_ pitch_pot p.2
    (q.1, p.1, smoothed_adc_value_)
  else
    (quantize_dejitter_, pot_dejitter_, smoothed_adc_value_)

/-- The local `pitch_combined` of `Read` after its clamp (cv_scaler.cc lines
193-198). -/
def pitch_combined (pitch_cv_used_ : Bool) (smoothed_adc_value_ : ℕ → ℚ) : ℚ :=
  let pitch_pot_raw := smoothed_adc_value_ pitch_pot
  let pitch_combined := pitch_pot_raw
  let adc_pitch_cv_val := smoothed_adc_value_ ADC_PITCH_CV * 2.0
  let pitch_combined :=
    if pitch_cv_used_ && (decide (adc_pitch_cv_val < 0.004) || decide (adc_pitch_cv_val > 0.004)) then
      pitch_combined + adc_pitch_cv_val
    else
      pitch_combined
  CONSTRAIN pitch_combined 0.0 1.0

/-- The tracking step of `Read` (cv_scaler.cc lines 201-217): the new value of
`note_`. -/
def track_note (voct_cv_used_ voct_cv_dejittered_ : Bool) (smoothed_adc_value_ : ℕ → ℚ)
    (note_ : ℚ) : ℚ :=
  let note := smoothed_adc_value_ ADC_VOCT_CV
  if voct_cv_used_ && decide (note > 0.002) then
    let note := note * 60
    if !voct_cv_dejittered_ then
      let note := note - 24
      if |note - note_| > 0.5 then
        note
      else
        ONE_POLE note_ note 0.2
    else
      note - 24
  else
    0

/-- The quantization step of `Read` (cv_scaler.cc lines 221-225): the new value
of `note_`. -/
def quantize_note (pitch_pot_raw note_ : ℚ) : ℚ :=
  let note_ :=
    if note_ < 0 then
      note_ - (0.5 - pitch_pot_raw * 0.5)
    else
      note_ + (0.5 + pitch_pot_raw * 0.5)
  ((int_cast note_ : ℤ) : ℚ)

/-- The shift loop of `Read` (cv_scaler.cc lines 275-278): its first `n`
iterations, applied to `previous_capture_` and `previous_gate_`. -/
def shift_loop : ℕ → (ℕ → Bool) × (ℕ → Bool) → (ℕ → Bool) × (ℕ → Bool)
  | 0, a => a
  | i + 1, a =>
    let a := shift_loop i a
    (Function.update a.1 i (a.1 (i + 1)), Function.update a.2 i (a.2 (i + 1)))

/-- The method `CvScaler::Read` (cv_scaler.cc lines 115-284): the new state and
the updated `Parameters`.  Float operations are evaluated exactly here;
`dry_wet_fl f32` is the dry/wet remap of lines 165-169 with binary32 rounding. -/
def Read (CV_FLIP : Bool) (lut_quantized_pitch : ℕ → ℚ) (adc_ : Adc) (pots_adc_ : PotsAdc)
    (gate_input_ : GateInput) (s : CvScaler) (parameters : Parameters) :
    CvScaler × Parameters :=
  let smoothed_adc_value_ :=
    smooth_loop CV_FLIP adc_ pots_adc_ s.calibration_data_ ADC_CHANNELS_TOTAL s.smoothed_adc_value_
  let d := dejitter_stage s.voct_cv_dejittered_ s.quantize_dejitter_ s.pot_dejitter_
    smoothed_adc_value_
  let quantize_dejitter_ := d.1
  let pot_dejitter_ := d.2.1
  let smoothed_adc_value_ := d.2.2
  let position := smoothed_adc_value_ (ADC_CHANNEL_LAST + ADC_POSITION_POTENTIOMETER)
  let position := position + smoothed_adc_value_ ADC_POSITION_CV * 2.0
  let position := CONSTRAIN position 0.0 1.0
  let texture := smoothed_adc_value_ (ADC_CHANNEL_LAST + ADC_TEXTURE_POTENTIOMETER)
  let texture := texture + smoothed_adc_value_ ADC_TEXTURE_CV * 2.0
  let texture := CONSTRAIN texture 0.0 1.0
  let density := smoothed_adc_value_ (ADC_CHANNEL_LAST + ADC_DENSITY_POTENTIOMETER)
  let density := density + smoothed_adc_value_ ADC_DENSITY_CV * 2.0
  let density := CONSTRAIN density 0.0 1.0
  let size := smoothed_adc_value_ ADC_GRAIN_POTENTIOMETER
  let size := size + smoothed_adc_value_ ADC_GRAIN_CV * 2.0
  let size := CONSTRAIN size 0.0 1.0
  let dry_wet := smoothed_adc_value_ (ADC_CHANNEL_LAST + ADC_BALANCE_POTENTIOMETER)
  let dry_wet := dry_wet + smoothed_adc_value_ ADC_BALANCE_CV * 2.0
  let dry_wet := dry_wet * 1.05 - 0.025
  let dry_wet := CONSTRAIN dry_wet 0.0 1.0
  let reverb_amount := smoothed_adc_value_ (ADC_CHANNEL_LAST + ADC_REVERB_POTENTIOMETER)
  let reverb_amount := reverb_amount + smoothed_adc_value_ ADC_REVERB_CV * 2.0
  let reverb_amount := CONSTRAIN reverb_amount 0.0 1.0
  let feedback := smoothed_adc_value_ (ADC_CHANNEL_LAST + ADC_FEEDBACK_POTENTIOMETER)
  let feedback := feedback + smoothed_adc_value_ ADC_FEEDBACK_CV * 2.0
  let feedback := CONSTRAIN feedback 0.0 1.0
  let stereo_spread := smoothed_adc_value_ (ADC_CHANNEL_LAST + ADC_SPREAD_POTENTIOMETER)
  let stereo_spread := stereo_spread + smoothed_adc_value_ ADC_SPREAD_CV * 2.0
  let stereo_spread := CONSTRAIN stereo_spread 0.0 1.0
  let output_level := smoothed_adc_value_ ADC_VCA_OUT_LEVEL
  let output_level := CONSTRAIN output_level 0.0 1.0
  let output_level_ := 1.0 - output_level
  let pitch_pot_raw := smoothed_adc_value_ pitch_pot
  let pitch := Interpolate lut_quantized_pitch
    (pitch_combined s.pitch_cv_used_ smoothed_adc_value_) 1024.0
  let note_ := track_note s.voct_cv_used_ s.voct_cv_dejittered_ smoothed_adc_value_ s.note_
  let note_ := if s.voct_cv_quantized_ then quantize_note pitch_pot_raw note_ else note_
  let pitch := if s.voct_cv_quantized_ then note_ else pitch + note_
  let pitch := CONSTRAIN pitch (-48.0) 48.0
  let slice_selection := CONSTRAIN (smoothed_adc_value_ ADC_TEXTURE_CV) 0.0 1.0
  let slice_modulation := CONSTRAIN (smoothed_adc_value_ ADC_TEXTURE_POTENTIOMETER) 0.0 1.0
  let kammerl_pitch := smoothed_adc_value_ pitch_pot
  let kammerl_pitch := kammerl_pitch + (smoothed_adc_value_ ADC_VOCT_CV - 0.5)
  let kammerl_pitch := CONSTRAIN kammerl_pitch 0.0 1.0
  let freeze :=
    if gate_input_.freeze_rising_edge then
      true
    else if gate_input_.freeze_falling_edge then
      false
    else
      parameters.freeze
  let capture := s.previous_capture_ 0 || s.capture_button_flag_
  let capture_button_flag_ := if s.capture_button_flag_ = true then false else s.capture_button_flag_
  let gate := s.previous_gate_ 0
  let shifted := shift_loop (kAdcLatency - 1) (s.previous_capture_, s.previous_gate_)
  let previous_capture_ := Function.update shifted.1 (kAdcLatency - 1) gate_input_.capture_rising_edge
  let previous_gate_ := Function.update shifted.2 (kAdcLatency - 1) gate_input_.gate
  ({ s with
     capture_button_flag_ := capture_button_flag_
     smoothed_adc_value_ := smoothed_adc_value_
     note_ := note_
     output_level_ := output_level_
     previous_capture_ := previous_capture_
     previous_gate_ := previous_gate_
     quantize_dejitter_ := quantize_dejitter_
     pot_dejitter_ := pot_dejitter_ },
   { parameters with
     position := position
     texture := texture
     density := density
     size := size
     dry_wet := dry_wet
     reverb := reverb_amount
     feedback := feedback
     stereo_spread := stereo_spread
     pitch := pitch
     freeze := freeze
     capture := capture
     gate := gate
     kammerl :=
       { slice_selection := slice_selection
         slice_modulation := slice_modulation
         size_modulation := density
         probability := dry_wet
         clock_divider := stereo_spread
         pitch_mode := feedback
         distortion := reverb_amount
         pitch := kammerl_pitch } })

/-- The state and the emitted `Parameters` after `n` consecutive calls of `Read`,
the `k`-th call (`k = 0, 1, ...`) seeing the driver readings `adc k`, `pots k`
and `gate k`. -/
def run (CV_FLIP : Bool) (lut_quantized_pitch : ℕ → ℚ) (adc : ℕ → Adc) (pots : ℕ → PotsAdc)
    (gate : ℕ → GateInput) (s : CvScaler) (parameters : Parameters) : ℕ → CvScaler × Parameters
  | 0 => (s, parameters)
  | n + 1 =>
    let r := run CV_FLIP lut_quantized_pitch adc pots gate s parameters n
    Read CV_FLIP lut_quantized_pitch (adc n) (pots n) (gate n) r.1 r.2

/-! ## Concrete data used to instantiate the theorems -/

/-- A calibration record with all offsets zero and the nominal V/oct fit. -/
def cal0 : CalibrationData :=
  { pitch_offset := 66, pitch_scale := -84, offset := fun _ => 0 }

/-- A scaler state with every member zero or false. -/
def scaler0 : CvScaler :=
  { calibration_data_ := cal0
    capture_button_flag_ := false
    smoothed_adc_value_ := fun _ => 0
    note_ := 0
    cv_c1_ := 0
    output_level_ := 0
    previous_capture_ := fun _ => false
    previous_gate_ := fun _ => false
    pitch_cv_used_ := false
    voct_cv_used_ := false
    voct_cv_quantized_ := false
    voct_cv_dejittered_ := false
    quantize_dejitter_ := { sum := 0 }
    pot_dejitter_ := { sum := 0 } }

/-- A `Parameters` record with every field zero or false. -/
def parameters0 : Parameters :=
  { position := 0, size := 0, pitch := 0, density := 0, texture := 0, dry_wet := 0,
    stereo_spread := 0, feedback := 0, reverb := 0, freeze := false, capture := false,
    gate := false,
    kammerl :=
      { slice_selection := 0, slice_modulation := 0, size_modulation := 0, probability := 0,
        clock_divider := 0, pitch_mode := 0, distortion := 0, pitch := 0 } }

/-- A CV bank whose channels all read `r`. -/
def adc_const (r : ℚ) : Adc :=
  { float_value := fun _ => r }

/-- A potentiometer bank whose channels all read `r`. -/
def pots_const (r : ℚ) : PotsAdc :=
  { float_value := fun _ => r }

/-- A gate reading with no edge and a low gate. -/
def gate_idle : GateInput :=
  { freeze_rising_edge := false, freeze_falling_edge := false, capture_rising_edge := false,
    gate := false }

/-- A gate stream with one pulse: the `Read` of cycle `T` samples a high gate
and a capture rising edge, every other cycle is idle. -/
def gate_pulse_at (T : ℕ) : ℕ → GateInput :=
  fun n =>
    if n = T then
      { freeze_rising_edge := false, freeze_falling_edge := false, capture_rising_edge := true,
        gate := true }
    else
      gate_idle

/-- A state in quantized V/oct mode (tracking on, dejitter off) whose persistent
note is `n`; everything else is zero. -/
def scaler_quantized (n : ℚ) : CvScaler :=
  { scaler0 with voct_cv_quantized_ := true, voct_cv_used_ := true, note_ := n }

/-- A state with the pitch CV in use, smoothed pitch pot at 1/2 and smoothed
pitch CV at 1/1000; everything else is zero. -/
def scaler_pitch_cv : CvScaler :=
  { scaler0 with
    pitch_cv_used_ := true
    smoothed_adc_value_ := fun i =>
      if i = pitch_pot then 1 / 2 else if i = ADC_PITCH_CV then 1 / 1000 else 0 }

/-- A gate reading with the given freeze edges, no capture edge and a low gate. -/
def gate_freeze (rising falling : Bool) : GateInput :=
  { freeze_rising_edge := rising, freeze_falling_edge := falling, capture_rising_edge := false,
    gate := false }

/-! ## Binary32 arithmetic

`Read` above evaluates every float operation exactly.  Two of its lines are
given a second time below with the rounding of every operation as a parameter
`fl`: with `fl = id` they are the exact lines of `Read`, with `fl = f32` they are
the program's binary32 arithmetic (each operation rounded on its own, no fused
multiply-add). -/

/-- Rounding of a rational to the nearest integer, ties to the even one. -/
def round_even (q : ℚ) : ℤ :=
  if q - ⌊q⌋ < 1 / 2 then ⌊q⌋
  else if 1 / 2 < q - ⌊q⌋ then ⌊q⌋ + 1
  else if ⌊q⌋ % 2 = 0 then ⌊q⌋ else ⌊q⌋ + 1

/-- The rounding of the C type `float` (IEEE 754 binary32, round to nearest, ties
to even): an exact result `q` becomes the nearest multiple of `2^(e-23)`, with
`e` the binary exponent of `q`, at least -126 (subnormal range below).  Overflow
is left out: no value met here reaches `2^128`. -/
def f32 (q : ℚ) : ℚ :=
  if q = 0 then 0
  else
    let e := max (Int.log 2 |q|) (-126)
    (round_even (q / 2 ^ (e - 23)) : ℚ) * 2 ^ (e - 23)

/-- Line 138 of cv_scaler.cc, `smoothed += filter_coefficient * (value - smoothed)`:
the new smoothed value, the literal coefficient and each of the three operations
rounded by `fl`. -/
def smooth_step_fl (fl : ℚ → ℚ) (filter_coefficient value smoothed : ℚ) : ℚ :=
  fl (smoothed + fl (fl filter_coefficient * fl (value - smoothed)))

/-- The smoothed value of a channel after `k` calls of `Read` that feed its
smoother the same `value` (no flip, no offset removal, not overwritten by the
dejitter stage), starting from `smoothed`. -/
def smooth_iter_fl (fl : ℚ → ℚ) (filter_coefficient value : ℚ) : ℕ → ℚ → ℚ
  | 0, smoothed => smoothed
  | k + 1, smoothed =>
    smooth_step_fl fl filter_coefficient value
      (smooth_iter_fl fl filter_coefficient value k smoothed)

/-- Lines 165-169 of cv_scaler.cc: the dry/wet value from the smoothed balance
pot and balance CV, literals and operations rounded by `fl`. -/
def dry_wet_fl (fl : ℚ → ℚ) (pot cv : ℚ) : ℚ :=
  let dry_wet := pot
  let dry_wet := fl (dry_wet + fl (cv * fl 2.0))
  let dry_wet := fl (fl (dry_wet * fl 1.05) - fl 0.025)
  CONSTRAIN dry_wet (fl 0.0) (fl 1.0)

/-! ## Helper lemmas -/

theorem CONSTRAIN_mem (var min max : ℚ) (h : min ≤ max) :
    min ≤ CONSTRAIN var min max ∧ CONSTRAIN var min max ≤ max := by
  unfold CONSTRAIN
  split_ifs with h1 h2
  · exact ⟨le_refl _, h⟩
  · exact ⟨h, le_refl _⟩
  · exact ⟨not_lt.mp h1, not_lt.mp h2⟩

theorem CONSTRAIN_unit (var : ℚ) :
    0 ≤ CONSTRAIN var 0.0 1.0 ∧ CONSTRAIN var 0.0 1.0 ≤ 1 := by
  have h := CONSTRAIN_mem var 0.0 1.0 (by norm_num)
  norm_num at h ⊢
  exact h

theorem CONSTRAIN_pitch (var : ℚ) :
    -48 ≤ CONSTRAIN var (-48.0) 48.0 ∧ CONSTRAIN var (-48.0) 48.0 ≤ 48 := by
  have h := CONSTRAIN_mem var (-48.0) 48.0 (by norm_num)
  norm_num at h ⊢
  exact h

/-! ## C1: output bounds -/

/-- C1: for every prior state (mode flags, calibration offsets, smoothed values,
filters), every lookup table, every build (`CV_FLIP`), every raw CV-bank and
pot-bank reading and every gate reading, the `Parameters` record `Read` emits has
position, texture, density, size, dry_wet, reverb, feedback, stereo_spread and
every scalar of the kammerl mirror in `[0,1]`, and pitch in `[-48,48]`. -/
theorem C1_Read_outputs_in_bounds (CV_FLIP : Bool) (lut_quantized_pitch : ℕ → ℚ) (adc_ : Adc)
    (pots_adc_ : PotsAdc) (gate_input_ : GateInput) (s : CvScaler) (parameters : Parameters) :
    let p := (Read CV_FLIP lut_quantized_pitch adc_ pots_adc_ gate_input_ s parameters).2
    (0 ≤ p.position ∧ p.position ≤ 1) ∧ (0 ≤ p.texture ∧ p.texture ≤ 1) ∧
    (0 ≤ p.density ∧ p.density ≤ 1) ∧ (0 ≤ p.size ∧ p.size ≤ 1) ∧
    (0 ≤ p.dry_wet ∧ p.dry_wet ≤ 1) ∧ (0 ≤ p.reverb ∧ p.reverb ≤ 1) ∧
    (0 ≤ p.feedback ∧ p.feedback ≤ 1) ∧ (0 ≤ p.stereo_spread ∧ p.stereo_spread ≤ 1) ∧
    (-48 ≤ p.pitch ∧ p.pitch ≤ 48) ∧
    (0 ≤ p.kammerl.slice_selection ∧ p.kammerl.slice_selection ≤ 1) ∧
    (0 ≤ p.kammerl.slice_modulation ∧ p.kammerl.slice_modulation ≤ 1) ∧
    (0 ≤ p.kammerl.size_modulation ∧ p.kammerl.size_modulation ≤ 1) ∧
    (0 ≤ p.kammerl.probability ∧ p.kammerl.probability ≤ 1) ∧
    (0 ≤ p.kammerl.clock_divider ∧ p.kammerl.clock_divider ≤ 1) ∧
    (0 ≤ p.kammerl.pitch_mode ∧ p.kammerl.pitch_mode ≤ 1) ∧
    (0 ≤ p.kammerl.distortion ∧ p.kammerl.distortion ≤ 1) ∧
    (0 ≤ p.kammerl.pitch ∧ p.kammerl.pitch ≤ 1) := by
  simp only [Read]
  exact ⟨CONSTRAIN_unit _, CONSTRAIN_unit _, CONSTRAIN_unit _, CONSTRAIN_unit _,
    CONSTRAIN_unit _, CONSTRAIN_unit _, CONSTRAIN_unit _, CONSTRAIN_unit _,
    CONSTRAIN_pitch _, CONSTRAIN_unit _, CONSTRAIN_unit _, CONSTRAIN_unit _,
    CONSTRAIN_unit _, CONSTRAIN_unit _, CONSTRAIN_unit _, CONSTRAIN_unit _,
    CONSTRAIN_unit _⟩

/-! ## C2, C3: two-point V/oct calibration -/

/-- C2: `CalibrateC3` returns true if and only if `delta = c3 - c1` (current
V/oct reading minus cached first point) satisfies `-0.5 < delta < 0`, both
bounds strict; and whenever it returns false the calibration record (offsets,
`pitch_scale`, `pitch_offset`) is unchanged, as is the rest of the state. -/
theorem C2_CalibrateC3_accepts_iff (adc_ : Adc) (s : CvScaler) :
    ((CalibrateC3 adc_ s).2 = true ↔
      (-0.5 < adc_.float_value ADC_VOCT_CV - s.cv_c1_ ∧
        adc_.float_value ADC_VOCT_CV - s.cv_c1_ < 0)) ∧
    ((CalibrateC3 adc_ s).2 = false →
      (CalibrateC3 adc_ s).1.calibration_data_ = s.calibration_data_ ∧
      (CalibrateC3 adc_ s).1 = s) := by
  have hz : (-0.0 : ℚ) = 0 := by norm_num
  unfold CalibrateC3
  simp only [hz, gt_iff_lt]
  split_ifs with h
  · exact ⟨⟨fun _ => h, fun _ => rfl⟩, fun hf => absurd hf (by simp)⟩
  · exact ⟨⟨fun hf => absurd hf (by simp), fun hd => absurd hd h⟩, fun _ => ⟨rfl, rfl⟩⟩

/-- C2 at delta = +0.1 (first point 0.5, current reading 0.6), delta = 0 and
delta = -0.5: each is rejected and the calibration record is unchanged. -/
theorem C2_CalibrateC3_accepts_iff_witness :
    ((CalibrateC3 (adc_const 0.6) { scaler0 with cv_c1_ := 0.5 }).2 = false ∧
      (CalibrateC3 (adc_const 0.6) { scaler0 with cv_c1_ := 0.5 }).1.calibration_data_ =
        ({ scaler0 with cv_c1_ := 0.5 } : CvScaler).calibration_data_) ∧
    (CalibrateC3 (adc_const 0.5) { scaler0 with cv_c1_ := 0.5 }).2 = false ∧
    (CalibrateC3 (adc_const 0) { scaler0 with cv_c1_ := 0.5 }).2 = false := by
  have h1 : (CalibrateC3 (adc_const 0.6) { scaler0 with cv_c1_ := 0.5 }).2 = false := by
    norm_num [CalibrateC3, adc_const]
  refine ⟨⟨h1, ((C2_CalibrateC3_accepts_iff (adc_const 0.6)
    { scaler0 with cv_c1_ := 0.5 }).2 h1).1⟩, ?_, ?_⟩
  · norm_num [CalibrateC3, adc_const]
  · norm_num [CalibrateC3, adc_const]

/-- C3: when `CalibrateC3` succeeds on a state whose first point `c1` was cached
by `CalibrateC1` and whose current V/oct reading is `c2`, it commits exactly
`pitch_scale = 24/(c2 - c1)` and `pitch_offset = 12 - pitch_scale*c1` and leaves
the offset array unchanged; for `c1 = 0.6488`, `c2 = 0.3640` it succeeds with
`pitch_scale = 24/(-0.2848)` and `pitch_offset = 12 - pitch_scale*0.6488`. -/
theorem C3_CalibrateC3_commits_fit :
    (∀ (adc1 adc3 : Adc) (s : CvScaler),
      (CalibrateC3 adc3 (CalibrateC1 adc1 s)).2 = true →
      (CalibrateC3 adc3 (CalibrateC1 adc1 s)).1.calibration_data_.pitch_scale =
        24 / (adc3.float_value ADC_VOCT_CV - adc1.float_value ADC_VOCT_CV) ∧
      (CalibrateC3 adc3 (CalibrateC1 adc1 s)).1.calibration_data_.pitch_offset =
        12 - (CalibrateC3 adc3 (CalibrateC1 adc1 s)).1.calibration_data_.pitch_scale *
          adc1.float_value ADC_VOCT_CV ∧
      (CalibrateC3 adc3 (CalibrateC1 adc1 s)).1.calibration_data_.offset =
        s.calibration_data_.offset) ∧
    (∀ s : CvScaler,
      (CalibrateC3 (adc_const 0.3640) (CalibrateC1 (adc_const 0.6488) s)).2 = true ∧
      (CalibrateC3 (adc_const 0.3640) (CalibrateC1 (adc_const 0.6488) s)).1.calibration_data_.pitch_scale =
        24 / (-0.2848) ∧
      (CalibrateC3 (adc_const 0.3640) (CalibrateC1 (adc_const 0.6488) s)).1.calibration_data_.pitch_offset =
        12 - (24 / (-0.2848)) * 0.6488) := by
  have hz : (-0.0 : ℚ) = 0 := by norm_num
  constructor
  · intro adc1 adc3 s
    unfold CalibrateC3 CalibrateC1
    simp only [hz, gt_iff_lt]
    split_ifs with h
    · intro _
      refine ⟨?_, ?_, rfl⟩ <;> norm_num
    · intro hf
      exact absurd hf (by simp)
  · intro s
    norm_num [CalibrateC3, CalibrateC1, adc_const]

/-- C3 at `c1 = 0.6488`, `c2 = 0.3640`, from the all-zero state: the call
succeeds and commits scale `24/(c2 - c1)`, offset `12 - scale*c1`, offsets
untouched. -/
theorem C3_CalibrateC3_commits_fit_witness :
    (CalibrateC3 (adc_const 0.3640) (CalibrateC1 (adc_const 0.6488) scaler0)).2 = true ∧
    (CalibrateC3 (adc_const 0.3640) (CalibrateC1 (adc_const 0.6488) scaler0)).1.calibration_data_.pitch_scale =
      24 / ((adc_const 0.3640).float_value ADC_VOCT_CV - (adc_const 0.6488).float_value ADC_VOCT_CV) ∧
    (CalibrateC3 (adc_const 0.3640) (CalibrateC1 (adc_const 0.6488) scaler0)).1.calibration_data_.pitch_offset =
      12 - (CalibrateC3 (adc_const 0.3640) (CalibrateC1 (adc_const 0.6488) scaler0)).1.calibration_data_.pitch_scale *
        (adc_const 0.6488).float_value ADC_VOCT_CV ∧
    (CalibrateC3 (adc_const 0.3640) (CalibrateC1 (adc_const 0.6488) scaler0)).1.calibration_data_.offset =
      scaler0.calibration_data_.offset :=
  ⟨(C3_CalibrateC3_commits_fit.2 scaler0).1,
    C3_CalibrateC3_commits_fit.1 (adc_const 0.6488) (adc_const 0.3640) scaler0
      (C3_CalibrateC3_commits_fit.2 scaler0).1⟩

/-! ## C4, C5: gate and capture delay lines, capture latch -/

theorem shift_loop_fst (n i : ℕ) (a : (ℕ → Bool) × (ℕ → Bool)) :
    (shift_loop n a).1 i = if i < n then a.1 (i + 1) else a.1 i := by
  induction n generalizing i with
  | zero => simp [shift_loop]
  | succ n ih =>
    simp only [shift_loop]
    by_cases h : i = n
    · subst h
      simp [ih]
    · rw [Function.update_noteq h, ih]
      by_cases h1 : i < n
      · simp [h1, Nat.lt_succ_of_lt h1]
      · have h2 : ¬ i < n + 1 := by omega
        simp [h1, h2]

theorem shift_loop_snd (n i : ℕ) (a : (ℕ → Bool) × (ℕ → Bool)) :
    (shift_loop n a).2 i = if i < n then a.2 (i + 1) else a.2 i := by
  induction n generalizing i with
  | zero => simp [shift_loop]
  | succ n ih =>
    simp only [shift_loop]
    by_cases h : i = n
    · subst h
      simp [ih]
    · rw [Function.update_noteq h, ih]
      by_cases h1 : i < n
      · simp [h1, Nat.lt_succ_of_lt h1]
      · have h2 : ¬ i < n + 1 := by omega
        simp [h1, h2]

theorem Read_previous_gate (CV_FLIP : Bool) (lut : ℕ → ℚ) (adc_ : Adc) (pots_adc_ : PotsAdc)
    (gate_input_ : GateInput) (s : CvScaler) (parameters : Parameters) (i : ℕ) :
    (Read CV_FLIP lut adc_ pots_adc_ gate_input_ s parameters).1.previous_gate_ i =
      if i < 4 then s.previous_gate_ (i + 1)
      else if i = 4 then gate_input_.gate else s.previous_gate_ i := by
  have e : kAdcLatency - 1 = 4 := rfl
  simp only [Read, e]
  by_cases h : i = 4
  · subst h; simp
  · rw [Function.update_noteq h, shift_loop_snd]
    simp [h]

theorem Read_previous_capture (CV_FLIP : Bool) (lut : ℕ → ℚ) (adc_ : Adc) (pots_adc_ : PotsAdc)
    (gate_input_ : GateInput) (s : CvScaler) (parameters : Parameters) (i : ℕ) :
    (Read CV_FLIP lut adc_ pots_adc_ gate_input_ s parameters).1.previous_capture_ i =
      if i < 4 then s.previous_capture_ (i + 1)
      else if i = 4 then gate_input_.capture_rising_edge else s.previous_capture_ i := by
  have e : kAdcLatency - 1 = 4 := rfl
  simp only [Read, e]
  by_cases h : i = 4
  · subst h; simp
  · rw [Function.update_noteq h, shift_loop_fst]
    simp [h]

theorem Read_capture_button_flag (CV_FLIP : Bool) (lut : ℕ → ℚ) (adc_ : Adc)
    (pots_adc_ : PotsAdc) (gate_input_ : GateInput) (s : CvScaler) (parameters : Parameters) :
    (Read CV_FLIP lut adc_ pots_adc_ gate_input_ s parameters).1.capture_button_flag_ = false := by
  simp only [Read]
  cases s.capture_button_flag_ <;> simp

theorem Read_gate (CV_FLIP : Bool) (lut : ℕ → ℚ) (adc_ : Adc) (pots_adc_ : PotsAdc)
    (gate_input_ : GateInput) (s : CvScaler) (parameters : Parameters) :
    (Read CV_FLIP lut adc_ pots_adc_ gate_input_ s parameters).2.gate = s.previous_gate_ 0 := rfl

theorem Read_capture (CV_FLIP : Bool) (lut : ℕ → ℚ) (adc_ : Adc) (pots_adc_ : PotsAdc)
    (gate_input_ : GateInput) (s : CvScaler) (parameters : Parameters) :
    (Read CV_FLIP lut adc_ pots_adc_ gate_input_ s parameters).2.capture =
      (s.previous_capture_ 0 || s.capture_button_flag_) := rfl

theorem run_succ (CV_FLIP : Bool) (lut : ℕ → ℚ) (adc : ℕ → Adc) (pots : ℕ → PotsAdc)
    (gate : ℕ → GateInput) (s : CvScaler) (p : Parameters) (n : ℕ) :
    run CV_FLIP lut adc pots gate s p (n + 1) =
      Read CV_FLIP lut (adc n) (pots n) (gate n) (run CV_FLIP lut adc pots gate s p n).1
        (run CV_FLIP lut adc pots gate s p n).2 := rfl

/-- After `n` calls of `Read` from a state whose delay lines are all false, slot
`i` of each delay line holds the sample of cycle `n + i - 5`, or false when that
cycle does not exist. -/
theorem run_delay_lines (CV_FLIP : Bool) (lut : ℕ → ℚ) (adc : ℕ → Adc) (pots : ℕ → PotsAdc)
    (gate : ℕ → GateInput) (s : CvScaler) (p : Parameters)
    (hg : ∀ i, i < 5 → s.previous_gate_ i = false)
    (hc : ∀ i, i < 5 → s.previous_capture_ i = false) (n : ℕ) :
    ∀ i, i < 5 →
      ((run CV_FLIP lut adc pots gate s p n).1.previous_gate_ i =
        if 5 ≤ n + i then (gate (n + i - 5)).gate else false) ∧
      ((run CV_FLIP lut adc pots gate s p n).1.previous_capture_ i =
        if 5 ≤ n + i then (gate (n + i - 5)).capture_rising_edge else false) := by
  induction n with
  | zero =>
    intro i hi
    have h : ¬ 5 ≤ 0 + i := by omega
    simp only [run, h, if_false]
    exact ⟨hg i hi, hc i hi⟩
  | succ n ih =>
    intro i hi
    rw [run_succ, Read_previous_gate, Read_previous_capture]
    by_cases h4 : i < 4
    · have h := ih (i + 1) (by omega)
      have e : n + 1 + i = n + (i + 1) := by omega
      simp only [h4, if_true, e]
      exact h
    · have e : i = 4 := by omega
      subst e
      have h5 : 5 ≤ n + 1 + 4 := by omega
      have e2 : n + 1 + 4 - 5 = n := by omega
      simp [h5, e2]

theorem run_capture_button_flag (CV_FLIP : Bool) (lut : ℕ → ℚ) (adc : ℕ → Adc)
    (pots : ℕ → PotsAdc) (gate : ℕ → GateInput) (s : CvScaler) (p : Parameters)
    (hf : s.capture_button_flag_ = false) (n : ℕ) :
    (run CV_FLIP lut adc pots gate s p n).1.capture_button_flag_ = false := by
  cases n with
  | zero => exact hf
  | succ n => rw [run_succ]; exact Read_capture_button_flag _ _ _ _ _ _ _

/-- C4: after `Init`, with the capture latch clear and never set, for every
stream of driver readings the `n`-th `Read` (`n = 0, 1, ...`) emits as gate the
gate level sampled by the `(n-5)`-th `Read` and as capture the capture rising
edge sampled by the `(n-5)`-th `Read` when `n ≥ 5`, and emits false for both
when `n < 5`. -/
theorem C4_gate_capture_delayed_five_cycles (CV_FLIP : Bool) (lut : ℕ → ℚ) (adc : ℕ → Adc)
    (pots : ℕ → PotsAdc) (gate : ℕ → GateInput) (s : CvScaler) (calibration_data : CalibrationData)
    (p : Parameters) (hlatch : s.capture_button_flag_ = false) (n : ℕ) :
    (run CV_FLIP lut adc pots gate (Init s calibration_data) p (n + 1)).2.gate =
      (if 5 ≤ n then (gate (n - 5)).gate else false) ∧
    (run CV_FLIP lut adc pots gate (Init s calibration_data) p (n + 1)).2.capture =
      (if 5 ≤ n then (gate (n - 5)).capture_rising_edge else false) := by
  have hd := run_delay_lines CV_FLIP lut adc pots gate (Init s calibration_data) p
    (fun i hi => by simp [Init, hi]) (fun i hi => by simp [Init, hi]) n 0 (by omega)
  have hf := run_capture_button_flag CV_FLIP lut adc pots gate (Init s calibration_data) p
    (by simpa [Init] using hlatch) n
  rw [run_succ, Read_gate, Read_capture, hf]
  simpa using hd

/-- C4 on a single pulse sampled at cycle 2: it is emitted by the `Read` of
cycle 7, and the `Read` of cycle 6 still emits false. -/
theorem C4_gate_capture_delayed_five_cycles_witness :
    scaler0.capture_button_flag_ = false ∧
    ((run false (fun _ => 0) (fun _ => adc_const 0) (fun _ => pots_const 0) (gate_pulse_at 2)
        (Init scaler0 cal0) parameters0 (7 + 1)).2.gate = true ∧
      (run false (fun _ => 0) (fun _ => adc_const 0) (fun _ => pots_const 0) (gate_pulse_at 2)
        (Init scaler0 cal0) parameters0 (7 + 1)).2.capture = true) ∧
    ((run false (fun _ => 0) (fun _ => adc_const 0) (fun _ => pots_const 0) (gate_pulse_at 2)
        (Init scaler0 cal0) parameters0 (6 + 1)).2.gate = false ∧
      (run false (fun _ => 0) (fun _ => adc_const 0) (fun _ => pots_const 0) (gate_pulse_at 2)
        (Init scaler0 cal0) parameters0 (6 + 1)).2.capture = false) := by
  have h7 := C4_gate_capture_delayed_five_cycles false (fun _ => 0) (fun _ => adc_const 0)
    (fun _ => pots_const 0) (gate_pulse_at 2) scaler0 cal0 parameters0 rfl 7
  have h6 := C4_gate_capture_delayed_five_cycles false (fun _ => 0) (fun _ => adc_const 0)
    (fun _ => pots_const 0) (gate_pulse_at 2) scaler0 cal0 parameters0 rfl 6
  simp [gate_pulse_at, gate_idle] at h7 h6
  exact ⟨rfl, h7, h6⟩

/-- C5: from every state, the `Read` that follows `set_capture_flag()` emits
capture = true and leaves the latch clear; the `Read` after it, with no
`set_capture_flag()` in between, emits as capture the head of the hardware
capture delay line alone and the latch stays clear. -/
theorem C5_capture_flag_consumed_once (CV_FLIP : Bool) (lut : ℕ → ℚ) (adc1 adc2 : Adc)
    (pots1 pots2 : PotsAdc) (gate1 gate2 : GateInput) (s : CvScaler) (p : Parameters) :
    (Read CV_FLIP lut adc1 pots1 gate1 (set_capture_flag s) p).2.capture = true ∧
    (Read CV_FLIP lut adc1 pots1 gate1 (set_capture_flag s) p).1.capture_button_flag_ = false ∧
    (Read CV_FLIP lut adc2 pots2 gate2
        (Read CV_FLIP lut adc1 pots1 gate1 (set_capture_flag s) p).1
        (Read CV_FLIP lut adc1 pots1 gate1 (set_capture_flag s) p).2).2.capture =
      (Read CV_FLIP lut adc1 pots1 gate1 (set_capture_flag s) p).1.previous_capture_ 0 ∧
    (Read CV_FLIP lut adc2 pots2 gate2
        (Read CV_FLIP lut adc1 pots1 gate1 (set_capture_flag s) p).1
        (Read CV_FLIP lut adc1 pots1 gate1 (set_capture_flag s) p).2).1.capture_button_flag_ =
      false := by
  refine ⟨?_, Read_capture_button_flag _ _ _ _ _ _ _, ?_, Read_capture_button_flag _ _ _ _ _ _ _⟩
  · rw [Read_capture]
    simp [set_capture_flag]
  · rw [Read_capture, Read_capture_button_flag]
    simp

/-! ## Binary32 rounding: evaluation and error bound -/

theorem round_even_near (q : ℚ) (m : ℤ) (h : |q - m| < 1 / 2) : round_even q = m := by
  rw [abs_lt] at h
  unfold round_even
  by_cases h0 : (m : ℚ) ≤ q
  · have hf : ⌊q⌋ = m := by
      rw [Int.floor_eq_iff]
      constructor <;> linarith
    rw [hf, if_pos (by linarith)]
  · have h0' : q < m := not_le.mp h0
    have hf : ⌊q⌋ = m - 1 := by
      rw [Int.floor_eq_iff]
      push_cast
      constructor <;> linarith
    rw [hf]
    push_cast
    rw [if_neg (by linarith), if_pos (by linarith)]
    ring

theorem round_even_error (q : ℚ) : |(round_even q : ℚ) - q| ≤ 1 / 2 := by
  have h1 := Int.floor_le q
  have h2 := Int.lt_floor_add_one q
  unfold round_even
  rw [abs_le]
  split_ifs with a b c
  · constructor <;> linarith
  · push_cast; constructor <;> linarith
  · constructor <;> linarith
  · push_cast; constructor <;> linarith

/-- Evaluation of `f32` at a value whose binary exponent `e` and rounded
significand `m` are known. -/
theorem f32_eq_of_near (x : ℚ) (e m : ℤ) (he : -126 ≤ e) (hlo : (2 : ℚ) ^ e ≤ |x|)
    (hhi : |x| < (2 : ℚ) ^ (e + 1)) (hm : |x / 2 ^ (e - 23) - m| < 1 / 2) :
    f32 x = (m : ℚ) * 2 ^ (e - 23) := by
  have hpos : (0 : ℚ) < |x| := lt_of_lt_of_le (by positivity) hlo
  have hx : x ≠ 0 := abs_pos.mp hpos
  have hlog : Int.log 2 |x| = e := by
    apply le_antisymm
    · have := (Int.lt_zpow_iff_log_lt (b := 2) (by norm_num) hpos (x := e + 1)).mp
        (by exact_mod_cast hhi)
      omega
    · exact (Int.zpow_le_iff_le_log (b := 2) (by norm_num) hpos).mp (by exact_mod_cast hlo)
  unfold f32
  rw [if_neg hx]
  simp only [hlog, max_eq_left he]
  rw [round_even_near _ m hm]

theorem f32_zero : f32 0 = 0 := by simp [f32]

/-- The rounding error of `f32`: relative error at most `2^-24`, plus `2^-150` in
the subnormal range. -/
theorem f32_error (x : ℚ) : |f32 x - x| ≤ 2 ^ (-24 : ℤ) * |x| + 2 ^ (-150 : ℤ) := by
  by_cases hx : x = 0
  · subst hx
    rw [f32_zero]
    norm_num
  have hpos : (0 : ℚ) < |x| := abs_pos.mpr hx
  unfold f32
  rw [if_neg hx]
  simp only []
  set e := max (Int.log 2 |x|) (-126) with he
  have hu : (0 : ℚ) < 2 ^ (e - 23) := by positivity
  have hr := round_even_error (x / 2 ^ (e - 23))
  have key : |(round_even (x / 2 ^ (e - 23)) : ℚ) * 2 ^ (e - 23) - x| ≤ 1 / 2 * 2 ^ (e - 23) := by
    have e1 : (round_even (x / 2 ^ (e - 23)) : ℚ) * 2 ^ (e - 23) - x =
        ((round_even (x / 2 ^ (e - 23)) : ℚ) - x / 2 ^ (e - 23)) * 2 ^ (e - 23) := by
      field_simp
    rw [e1, abs_mul, abs_of_pos hu]
    exact mul_le_mul_of_nonneg_right hr hu.le
  have half : (1 / 2 : ℚ) * 2 ^ (e - 23) = 2 ^ (e - 24) := by
    have : e - 23 = (e - 24) + 1 := by ring
    rw [this, zpow_add₀ (by norm_num : (2 : ℚ) ≠ 0)]
    ring
  rw [half] at key
  refine le_trans key ?_
  by_cases hl : -126 ≤ Int.log 2 |x|
  · have he' : e = Int.log 2 |x| := by rw [he]; exact max_eq_left hl
    have hle := Int.zpow_log_le_self (b := 2) (by norm_num) hpos
    have h24 : (2 : ℚ) ^ (e - 24) = 2 ^ (-24 : ℤ) * 2 ^ e := by
      rw [← zpow_add₀ (by norm_num : (2 : ℚ) ≠ 0)]
      congr 1
      ring
    rw [h24, he']
    have hle' : (2 : ℚ) ^ Int.log 2 |x| ≤ |x| := by exact_mod_cast hle
    have : (0 : ℚ) < 2 ^ (-24 : ℤ) := by positivity
    have h150 : (0 : ℚ) < 2 ^ (-150 : ℤ) := by positivity
    nlinarith
  · have he' : e = -126 := by rw [he]; exact max_eq_right (by omega)
    rw [he']
    have : (0 : ℚ) ≤ 2 ^ (-24 : ℤ) * |x| := by positivity
    have h150 : (2 : ℚ) ^ (-126 - 24 : ℤ) = 2 ^ (-150 : ℤ) := by norm_num
    rw [h150]
    linarith


/-- Evaluation of `f32` at a positive value whose binary exponent `e` and rounded
significand `m` are known. -/
theorem f32_eq_pos (x : ℚ) (e m : ℤ) (he : -126 ≤ e) (hlo : (2 : ℚ) ^ e ≤ x)
    (hhi : x < (2 : ℚ) ^ (e + 1)) (h1 : (m : ℚ) - 1 / 2 < x / 2 ^ (e - 23))
    (h2 : x / 2 ^ (e - 23) < (m : ℚ) + 1 / 2) : f32 x = (m : ℚ) * 2 ^ (e - 23) := by
  have hx : 0 < x := lt_of_lt_of_le (by positivity) hlo
  apply f32_eq_of_near x e m he
  · rw [abs_of_pos hx]; exact hlo
  · rw [abs_of_pos hx]; exact hhi
  · rw [abs_lt]; constructor <;> linarith

/-- Evaluation of `f32` at a negative value. -/
theorem f32_eq_neg (x : ℚ) (e m : ℤ) (he : -126 ≤ e) (hlo : (2 : ℚ) ^ e ≤ -x)
    (hhi : -x < (2 : ℚ) ^ (e + 1)) (h1 : (m : ℚ) - 1 / 2 < x / 2 ^ (e - 23))
    (h2 : x / 2 ^ (e - 23) < (m : ℚ) + 1 / 2) : f32 x = (m : ℚ) * 2 ^ (e - 23) := by
  have hx : x < 0 := by
    have : (0 : ℚ) < 2 ^ e := by positivity
    linarith
  apply f32_eq_of_near x e m he
  · rw [abs_of_neg hx]; exact hlo
  · rw [abs_of_neg hx]; exact hhi
  · rw [abs_lt]; constructor <;> linarith

/-- The literal `1.0f`. -/
theorem f32_lit_1 : f32 1 = 1 := by
  rw [f32_eq_pos 1 (0) 8388608 (by norm_num) (by norm_num) (by norm_num)
    (by norm_num) (by norm_num)]
  norm_num

/-- The literal `2.0f`. -/
theorem f32_lit_2 : f32 2 = 2 := by
  rw [f32_eq_pos 2 (1) 8388608 (by norm_num) (by norm_num) (by norm_num)
    (by norm_num) (by norm_num)]
  norm_num

/-- The value 1/2 is a binary32 number. -/
theorem f32_lit_0_5 : f32 (1 / 2) = (1 / 2) := by
  rw [f32_eq_pos (1 / 2) (-1) 8388608 (by norm_num) (by norm_num) (by norm_num)
    (by norm_num) (by norm_num)]
  norm_num

/-- The literal `1.05f`. -/
theorem f32_lit_1_05 : f32 (21 / 20) = (4404019 / 4194304) := by
  rw [f32_eq_pos (21 / 20) (0) 8808038 (by norm_num) (by norm_num) (by norm_num)
    (by norm_num) (by norm_num)]
  norm_num

/-- The literal `0.025f`. -/
theorem f32_lit_0_025 : f32 (1 / 40) = (13421773 / 536870912) := by
  rw [f32_eq_pos (1 / 40) (-6) 13421773 (by norm_num) (by norm_num) (by norm_num)
    (by norm_num) (by norm_num)]
  norm_num

/-- The value `1.025f`. -/
theorem f32_lit_1_025 : f32 (41 / 40) = (8598323 / 8388608) := by
  rw [f32_eq_pos (41 / 40) (0) 8598323 (by norm_num) (by norm_num) (by norm_num)
    (by norm_num) (by norm_num)]
  norm_num

/-- Dry/wet at 1/2: the product with `1.05f`. -/
theorem f32_dw_half_mul : f32 (4404019 / 8388608) = (4404019 / 8388608) := by
  rw [f32_eq_pos (4404019 / 8388608) (-1) 8808038 (by norm_num) (by norm_num) (by norm_num)
    (by norm_num) (by norm_num)]
  norm_num

/-- Dry/wet at 1/2: the difference with `0.025f`. -/
theorem f32_dw_half_sub : f32 (268435443 / 536870912) = (16777215 / 33554432) := by
  rw [f32_eq_pos (268435443 / 536870912) (-2) 16777215 (by norm_num) (by norm_num) (by norm_num)
    (by norm_num) (by norm_num)]
  norm_num

/-- Dry/wet at 1: the product with `1.05f`. -/
theorem f32_dw_one_mul : f32 (4404019 / 4194304) = (4404019 / 4194304) := by
  rw [f32_eq_pos (4404019 / 4194304) (0) 8808038 (by norm_num) (by norm_num) (by norm_num)
    (by norm_num) (by norm_num)]
  norm_num

/-- Dry/wet at 1: the difference with `0.025f`. -/
theorem f32_dw_one_sub : f32 (550292659 / 536870912) = (8598323 / 8388608) := by
  rw [f32_eq_pos (550292659 / 536870912) (0) 8598323 (by norm_num) (by norm_num) (by norm_num)
    (by norm_num) (by norm_num)]
  norm_num

/-- Dry/wet at 0: the difference with `0.025f`. -/
theorem f32_dw_zero_sub : f32 (-13421773 / 536870912) = (-13421773 / 536870912) := by
  rw [f32_eq_neg (-13421773 / 536870912) (-6) (-13421773) (by norm_num) (by norm_num) (by norm_num)
    (by norm_num) (by norm_num)]
  norm_num

theorem smooth_loop_apply (CV_FLIP : Bool) (adc_ : Adc) (pots_adc_ : PotsAdc)
    (cal : CalibrationData) (n i : ℕ) (sm : ℕ → ℚ) :
    smooth_loop CV_FLIP adc_ pots_adc_ cal n sm i =
      if i < n then
        sm i + (transformation CV_FLIP i).filter_coefficient *
          (transformed_value CV_FLIP adc_ pots_adc_ cal i - sm i)
      else sm i := by
  induction n with
  | zero => simp [smooth_loop]
  | succ n ih =>
    simp only [smooth_loop]
    by_cases h : i = n
    · subst h
      simp [ih]
    · rw [Function.update_noteq h, ih]
      by_cases h1 : i < n
      · simp [h1, Nat.lt_succ_of_lt h1]
      · have h2 : ¬ i < n + 1 := by omega
        simp [h1, h2]

theorem dejitter_stage_apply (flag : Bool) (q p : CirrusExpFltr) (sm : ℕ → ℚ) (i : ℕ)
    (h : flag = false ∨ (i ≠ ADC_VOCT_CV ∧ i ≠ pitch_pot)) :
    (dejitter_stage flag q p sm).2.2 i = sm i := by
  unfold dejitter_stage
  cases flag with
  | false => simp
  | true =>
    rcases h with h | ⟨h1, h2⟩
    · exact absurd h (by simp)
    · simp only [if_true]
      rw [Function.update_noteq h2, Function.update_noteq h1]

/-- One `Read` on a channel the dejitter stage does not overwrite: one step of
the one-pole smoother toward the transformed reading. -/
theorem Read_smoothed (CV_FLIP : Bool) (lut : ℕ → ℚ) (adc_ : Adc) (pots_adc_ : PotsAdc)
    (gate_input_ : GateInput) (s : CvScaler) (parameters : Parameters) (i : ℕ)
    (hi : i < ADC_CHANNELS_TOTAL)
    (hd : s.voct_cv_dejittered_ = false ∨ (i ≠ ADC_VOCT_CV ∧ i ≠ pitch_pot)) :
    (Read CV_FLIP lut adc_ pots_adc_ gate_input_ s parameters).1.smoothed_adc_value_ i =
      s.smoothed_adc_value_ i + (transformation CV_FLIP i).filter_coefficient *
        (transformed_value CV_FLIP adc_ pots_adc_ s.calibration_data_ i -
          s.smoothed_adc_value_ i) := by
  simp only [Read]
  rw [dejitter_stage_apply _ _ _ _ _ hd, smooth_loop_apply]
  simp [hi]

theorem run_voct_cv_dejittered (CV_FLIP : Bool) (lut : ℕ → ℚ) (adc : ℕ → Adc)
    (pots : ℕ → PotsAdc) (gate : ℕ → GateInput) (s : CvScaler) (p : Parameters) (n : ℕ) :
    (run CV_FLIP lut adc pots gate s p n).1.voct_cv_dejittered_ = s.voct_cv_dejittered_ := by
  induction n with
  | zero => rfl
  | succ n ih => rw [run_succ]; exact ih

theorem run_calibration_data (CV_FLIP : Bool) (lut : ℕ → ℚ) (adc : ℕ → Adc)
    (pots : ℕ → PotsAdc) (gate : ℕ → GateInput) (s : CvScaler) (p : Parameters) (n : ℕ) :
    (run CV_FLIP lut adc pots gate s p n).1.calibration_data_ = s.calibration_data_ := by
  induction n with
  | zero => rfl
  | succ n ih => rw [run_succ]; exact ih

/-- With exact operations (`fl = id`) each smoothing step multiplies the distance
to the target by `1 - α`. -/
theorem smooth_iter_exact (coef r s0 : ℚ) (k : ℕ) :
    smooth_iter_fl id coef r k s0 - r = (1 - coef) ^ k * (s0 - r) := by
  induction k with
  | zero => simp [smooth_iter_fl]
  | succ k ih =>
    simp only [smooth_iter_fl, smooth_step_fl, id]
    have e : ∀ x : ℚ, x + coef * (r - x) - r = (1 - coef) * (x - r) := by intro x; ring
    rw [e, ih, pow_succ]
    ring

/-- The exact embedding of `Read` and `smooth_iter_fl id` agree: on a channel with
`flip = false` and `remove_offset = false` that the dejitter stage does not
overwrite, `k` calls of `Read` at constant raw reading `r` leave the smoothed
value `smooth_iter_fl id α r k s_0`. -/
theorem run_smoothed_eq_smooth_iter (CV_FLIP : Bool) (lut : ℕ → ℚ) (adc : ℕ → Adc)
    (pots : ℕ → PotsAdc) (gate : ℕ → GateInput) (s : CvScaler) (p : Parameters) (i : ℕ) (r : ℚ)
    (k : ℕ) (hi : i < ADC_CHANNELS_TOTAL)
    (hflip : (transformation CV_FLIP i).flip = false)
    (hoff : (transformation CV_FLIP i).remove_offset = false)
    (hd : s.voct_cv_dejittered_ = false ∨ (i ≠ ADC_VOCT_CV ∧ i ≠ pitch_pot))
    (hr : ∀ n, n < k → raw_value (adc n) (pots n) i = r) :
    (run CV_FLIP lut adc pots gate s p k).1.smoothed_adc_value_ i =
      smooth_iter_fl id (transformation CV_FLIP i).filter_coefficient r k
        (s.smoothed_adc_value_ i) := by
  induction k with
  | zero => rfl
  | succ k ih =>
    have ih' := ih (fun n hn => hr n (Nat.lt_succ_of_lt hn))
    have hd' : (run CV_FLIP lut adc pots gate s p k).1.voct_cv_dejittered_ = false ∨
        (i ≠ ADC_VOCT_CV ∧ i ≠ pitch_pot) := by
      rw [run_voct_cv_dejittered]; exact hd
    have hv : transformed_value CV_FLIP (adc k) (pots k)
        (run CV_FLIP lut adc pots gate s p k).1.calibration_data_ i = r := by
      simp only [transformed_value, hflip, hoff]
      simpa using hr k (Nat.lt_succ_self k)
    rw [run_succ, Read_smoothed _ _ _ _ _ _ _ i hi hd', hv, ih']
    simp only [smooth_iter_fl, smooth_step_fl, id]

theorem CalibrateOffsets_loop_apply (adc_ : Adc) (n i : ℕ) (offset : ℕ → ℚ) :
    CalibrateOffsets_loop adc_ n offset i = if i < n then adc_.float_value i else offset i := by
  induction n with
  | zero => simp [CalibrateOffsets_loop]
  | succ n ih =>
    simp only [CalibrateOffsets_loop]
    by_cases h : i = n
    · subst h
      simp
    · rw [Function.update_noteq h, ih]
      by_cases h1 : i < n
      · simp [h1, Nat.lt_succ_of_lt h1]
      · have h2 : ¬ i < n + 1 := by omega
        simp [h1, h2]

theorem CalibrateOffsets_offset (adc_ : Adc) (s : CvScaler) (i : ℕ) (hi : i < ADC_CHANNELS_TOTAL) :
    (CalibrateOffsets adc_ s).calibration_data_.offset i = adc_.float_value i := by
  simp only [CalibrateOffsets, CalibrateOffsets_loop_apply]
  simp [hi]

/-- Only CV-bank channels other than V/oct have `remove_offset` set. -/
theorem remove_offset_channel (CV_FLIP : Bool) (i : ℕ)
    (h : (transformation CV_FLIP i).remove_offset = true) :
    i < ADC_CHANNEL_LAST ∧ i ≠ ADC_VOCT_CV := by
  by_cases hi : i < 20
  · interval_cases i <;> simp [transformation, transformations_] at h <;> decide
  · have hlen : (transformations_ CV_FLIP).length ≤ i := by
      simp only [transformations_, List.length]
      omega
    rw [transformation, List.getD_eq_default _ _ hlen] at h
    exact absurd h (by simp)

/-- The value `Read` feeds to the smoother of a `remove_offset` channel whose raw
reading `r` is the one `CalibrateOffsets` saw: 0 without flip, `1 - 2r` with
flip. -/
theorem transformed_value_after_CalibrateOffsets (CV_FLIP : Bool) (adc0 adc_ : Adc)
    (pots0 pots_adc_ : PotsAdc) (s : CvScaler) (i : ℕ) (r : ℚ)
    (hoff : (transformation CV_FLIP i).remove_offset = true)
    (hcal : raw_value adc0 pots0 i = r) (hr : raw_value adc_ pots_adc_ i = r) :
    transformed_value CV_FLIP adc_ pots_adc_ (CalibrateOffsets adc0 s).calibration_data_ i =
      if (transformation CV_FLIP i).flip then 1 - 2 * r else 0 := by
  have hi := (remove_offset_channel CV_FLIP i hoff).1
  have hi' : i < ADC_CHANNELS_TOTAL := by
    have : ADC_CHANNEL_LAST ≤ ADC_CHANNELS_TOTAL := by decide
    omega
  have h0 : adc0.float_value i = r := by
    simpa [raw_value, hi] using hcal
  simp only [transformed_value, hoff, if_true, hr, CalibrateOffsets_offset _ _ _ hi', h0]
  cases (transformation CV_FLIP i).flip
  · simp
  · simp only [if_true]; ring

/-- The unflipped case of offset calibration: on a `remove_offset` channel with
`flip = false`, after `CalibrateOffsets` at raw reading `r`, `k` calls of `Read`
at the same raw reading multiply the smoothed value by `(1 - α)^k`. -/
theorem offset_calibration_unflipped (CV_FLIP : Bool) (lut : ℕ → ℚ) (adc0 : Adc) (pots0 : PotsAdc)
    (adc : ℕ → Adc) (pots : ℕ → PotsAdc) (gate : ℕ → GateInput) (s : CvScaler) (p : Parameters)
    (i : ℕ) (r : ℚ) (k : ℕ)
    (hoff : (transformation CV_FLIP i).remove_offset = true)
    (hflip : (transformation CV_FLIP i).flip = false)
    (hcal : raw_value adc0 pots0 i = r)
    (hr : ∀ n, n < k → raw_value (adc n) (pots n) i = r) :
    (run CV_FLIP lut adc pots gate (CalibrateOffsets adc0 s) p k).1.smoothed_adc_value_ i =
      (1 - (transformation CV_FLIP i).filter_coefficient) ^ k * s.smoothed_adc_value_ i := by
  have hch := remove_offset_channel CV_FLIP i hoff
  have hi' : i < ADC_CHANNELS_TOTAL := by
    have : ADC_CHANNEL_LAST ≤ ADC_CHANNELS_TOTAL := by decide
    omega
  have hne : i ≠ pitch_pot := by
    have : ADC_CHANNEL_LAST ≤ pitch_pot := by decide
    omega
  induction k with
  | zero => simp [run, CalibrateOffsets]
  | succ k ih =>
    have ih' := ih (fun n hn => hr n (Nat.lt_succ_of_lt hn))
    have hv := transformed_value_after_CalibrateOffsets CV_FLIP adc0 (adc k) pots0 (pots k) s i r
      hoff hcal (hr k (Nat.lt_succ_self k))
    rw [hflip] at hv
    rw [run_succ, Read_smoothed _ _ _ _ _ _ _ i hi' (Or.inr ⟨hch.2, hne⟩), run_calibration_data,
      hv, ih', pow_succ]
    simp only [Bool.false_eq_true, if_false]
    ring

/-- C7 fails in the flipped build: with `CV_FLIP = true`, after `CalibrateOffsets`
at raw reading 1/4 on the position CV channel (`remove_offset = true`), a `Read`
at the same raw reading feeds `1 - 2*(1/4) = 1/2`, not 0, into the smoother, and
a smoothed value of 0 moves to `0.05 * (1/2) = 1/40` instead of staying 0. -/
theorem C7_flipped_channel_not_zeroed :
    (transformation true ADC_POSITION_CV).remove_offset = true ∧
    raw_value (adc_const (1 / 4)) (pots_const 0) ADC_POSITION_CV = 1 / 4 ∧
    scaler0.smoothed_adc_value_ ADC_POSITION_CV = 0 ∧
    transformed_value true (adc_const (1 / 4)) (pots_const 0)
      (CalibrateOffsets (adc_const (1 / 4)) scaler0).calibration_data_ ADC_POSITION_CV = 1 / 2 ∧
    (Read true (fun _ => 0) (adc_const (1 / 4)) (pots_const 0) gate_idle
      (CalibrateOffsets (adc_const (1 / 4)) scaler0) parameters0).1.smoothed_adc_value_
        ADC_POSITION_CV = 1 / 40 := by
  have hv : transformed_value true (adc_const (1 / 4)) (pots_const 0)
      (CalibrateOffsets (adc_const (1 / 4)) scaler0).calibration_data_ ADC_POSITION_CV = 1 / 2 := by
    rw [transformed_value_after_CalibrateOffsets true (adc_const (1 / 4)) (adc_const (1 / 4))
      (pots_const 0) (pots_const 0) scaler0 ADC_POSITION_CV (1 / 4) rfl rfl rfl]
    norm_num [transformation, transformations_]
  refine ⟨rfl, rfl, rfl, hv, ?_⟩
  rw [Read_smoothed _ _ _ _ _ _ _ ADC_POSITION_CV (by decide) (Or.inl rfl), hv]
  norm_num [transformation, transformations_, CalibrateOffsets, scaler0]

/-! ## C8, C9: quantization of the note -/

theorem int_cast_of_nonneg (x : ℚ) (h : 0 ≤ x) : int_cast x = ⌊x⌋ := by
  simp [int_cast, h]

theorem int_cast_of_neg (x : ℚ) (h : x < 0) : int_cast x = ⌈x⌉ := by
  simp [int_cast, not_le.mpr h]

/-- In quantized mode the note `Read` stores is the quantization of the tracked
note, biased by the smoothed pitch pot, and the pitch it emits is that note
clamped. -/
theorem Read_note_quantized (CV_FLIP : Bool) (lut : ℕ → ℚ) (adc_ : Adc) (pots_adc_ : PotsAdc)
    (gate_input_ : GateInput) (s : CvScaler) (parameters : Parameters)
    (hq : s.voct_cv_quantized_ = true) :
    (Read CV_FLIP lut adc_ pots_adc_ gate_input_ s parameters).1.note_ =
      quantize_note
        ((Read CV_FLIP lut adc_ pots_adc_ gate_input_ s parameters).1.smoothed_adc_value_ pitch_pot)
        (track_note s.voct_cv_used_ s.voct_cv_dejittered_
          (Read CV_FLIP lut adc_ pots_adc_ gate_input_ s parameters).1.smoothed_adc_value_ s.note_) ∧
    (Read CV_FLIP lut adc_ pots_adc_ gate_input_ s parameters).2.pitch =
      CONSTRAIN (Read CV_FLIP lut adc_ pots_adc_ gate_input_ s parameters).1.note_ (-48.0) 48.0 := by
  simp only [Read, hq, if_true, and_self]

theorem quantize_note_nonneg (p note : ℚ) (h : 0 ≤ note) :
    quantize_note p note = ((int_cast (note + (0.5 + p * 0.5)) : ℤ) : ℚ) := by
  simp [quantize_note, not_lt.mpr h]

theorem quantize_note_neg (p note : ℚ) (h : note < 0) :
    quantize_note p note = ((int_cast (note - (0.5 - p * 0.5)) : ℤ) : ℚ) := by
  simp [quantize_note, h]

/-- What the guard of cv_scaler.cc line 196 computes: the pitch CV is added
whenever `pitch_cv_used_` is set and twice the smoothed pitch CV differs from
0.004. -/
theorem pitch_combined_eq (pitch_cv_used_ : Bool) (sm : ℕ → ℚ) :
    pitch_combined pitch_cv_used_ sm =
      if pitch_cv_used_ = true ∧ sm ADC_PITCH_CV * 2 ≠ 0.004 then
        CONSTRAIN (sm pitch_pot + sm ADC_PITCH_CV * 2) 0 1
      else
        CONSTRAIN (sm pitch_pot) 0 1 := by
  have e : (2.0 : ℚ) = 2 := by norm_num
  have e0 : (0.0 : ℚ) = 0 := by norm_num
  have e1 : (1.0 : ℚ) = 1 := by norm_num
  simp only [pitch_combined, e, e0, e1, Bool.and_eq_true, Bool.or_eq_true, decide_eq_true_eq,
    gt_iff_lt, ne_eq, lt_or_lt_iff_ne]
  by_cases h : pitch_cv_used_ = true ∧ ¬ sm ADC_PITCH_CV * 2 = 0.004
  · rw [if_pos h, if_pos h]
  · rw [if_neg h, if_neg h]

theorem Read_scaler_pitch_cv_smoothed :
    (Read false (fun _ => 0) (adc_const (1 / 1000)) (pots_const (1 / 2)) gate_idle scaler_pitch_cv
      parameters0).1.smoothed_adc_value_ ADC_PITCH_CV = 1 / 1000 ∧
    (Read false (fun _ => 0) (adc_const (1 / 1000)) (pots_const (1 / 2)) gate_idle scaler_pitch_cv
      parameters0).1.smoothed_adc_value_ pitch_pot = 1 / 2 := by
  constructor
  · rw [Read_smoothed _ _ _ _ _ _ _ ADC_PITCH_CV (by decide) (Or.inl rfl)]
    norm_num [transformed_value, transformation, transformations_, raw_value, adc_const,
      scaler_pitch_cv, scaler0, cal0]
  · rw [Read_smoothed _ _ _ _ _ _ _ pitch_pot (by decide) (Or.inl rfl)]
    norm_num [transformed_value, transformation, transformations_, raw_value, pots_const,
      scaler_pitch_cv, scaler0, cal0]

/-- C10 fails on the code: with `pitch_cv_used_` set, smoothed pitch pot 1/2 and
smoothed pitch CV 1/1000 after the acquisition of a `Read` (so `|2c| = 0.002`,
inside the 0.004 deadband), `pitch_combined` is `0.502 = clamp(pot + 2c)`, not
`clamp(pot) = 0.5`, which is what it is with `pitch_cv_used_` clear. -/
theorem C10_pitch_cv_added_inside_deadband :
    |2 * (Read false (fun _ => 0) (adc_const (1 / 1000)) (pots_const (1 / 2)) gate_idle
      scaler_pitch_cv parameters0).1.smoothed_adc_value_ ADC_PITCH_CV| ≤ 0.004 ∧
    scaler_pitch_cv.pitch_cv_used_ = true ∧
    pitch_combined scaler_pitch_cv.pitch_cv_used_
      (Read false (fun _ => 0) (adc_const (1 / 1000)) (pots_const (1 / 2)) gate_idle
        scaler_pitch_cv parameters0).1.smoothed_adc_value_ = 0.502 ∧
    CONSTRAIN ((Read false (fun _ => 0) (adc_const (1 / 1000)) (pots_const (1 / 2)) gate_idle
      scaler_pitch_cv parameters0).1.smoothed_adc_value_ pitch_pot) 0 1 = 0.5 ∧
    pitch_combined false
      (Read false (fun _ => 0) (adc_const (1 / 1000)) (pots_const (1 / 2)) gate_idle
        scaler_pitch_cv parameters0).1.smoothed_adc_value_ = 0.5 := by
  have hu : scaler_pitch_cv.pitch_cv_used_ = true := rfl
  rw [pitch_combined_eq, pitch_combined_eq, hu, Read_scaler_pitch_cv_smoothed.1,
    Read_scaler_pitch_cv_smoothed.2]
  refine ⟨?_, rfl, ?_, ?_, ?_⟩
  · rw [abs_of_nonneg] <;> norm_num
  · norm_num [CONSTRAIN]
  · norm_num [CONSTRAIN]
  · norm_num [CONSTRAIN]

/-! ## C11, C12: parameter derivation -/

/-- The exact embedding of `Read` and `dry_wet_fl id` agree. -/
theorem Read_dry_wet_eq_fl (CV_FLIP : Bool) (lut : ℕ → ℚ) (adc_ : Adc) (pots_adc_ : PotsAdc)
    (gate_input_ : GateInput) (s : CvScaler) (parameters : Parameters) :
    (Read CV_FLIP lut adc_ pots_adc_ gate_input_ s parameters).2.dry_wet =
      dry_wet_fl id
        ((Read CV_FLIP lut adc_ pots_adc_ gate_input_ s parameters).1.smoothed_adc_value_
          (ADC_CHANNEL_LAST + ADC_BALANCE_POTENTIOMETER))
        ((Read CV_FLIP lut adc_ pots_adc_ gate_input_ s parameters).1.smoothed_adc_value_
          ADC_BALANCE_CV) := by
  simp only [Read, dry_wet_fl, id]

theorem CONSTRAIN_lipschitz (a b : ℚ) :
    |CONSTRAIN a 0 1 - CONSTRAIN b 0 1| ≤ |a - b| := by
  unfold CONSTRAIN
  split_ifs <;> rw [abs_le] <;> constructor <;>
    first
      | linarith [le_abs_self (a - b), neg_abs_le (a - b)]

/-- The algebra of the dry/wet remap whose product and difference carry a
relative error `u` and an absolute error `η`. -/
theorem dry_wet_error_algebra (x c1 c2 t1 t2 u η : ℚ) (hu0 : 0 ≤ u) (hc1 : 0 ≤ c1)
    (hc2 : 0 ≤ c2)
    (h1 : |t1 - x * c1| ≤ u * |x * c1| + η)
    (h2 : |t2 - (t1 - c2)| ≤ u * |t1 - c2| + η) :
    |t2 - (x * c1 - c2)| ≤
      u * (|x| * c1) + η + (u * (|x| * c1 + (u * (|x| * c1) + η) + c2) + η) := by
  have hxc : |x * c1| = |x| * c1 := by rw [abs_mul, abs_of_nonneg hc1]
  rw [hxc] at h1
  have ht1 : |t1| ≤ |x| * c1 + (u * (|x| * c1) + η) := by
    have := abs_sub_abs_le_abs_sub t1 (x * c1)
    rw [hxc] at this
    linarith
  have ht : |t1 - c2| ≤ |x| * c1 + (u * (|x| * c1) + η) + c2 := by
    have h := abs_sub t1 c2
    have : |t1 - c2| ≤ |t1| + |c2| := by
      have e : t1 - c2 = t1 + -c2 := by ring
      rw [e]
      exact le_trans (abs_add _ _) (by rw [abs_neg])
    rw [abs_of_nonneg hc2] at this
    linarith
  have hm := mul_le_mul_of_nonneg_left ht hu0
  have hsplit : t2 - (x * c1 - c2) = (t2 - (t1 - c2)) + (t1 - x * c1) := by ring
  rw [hsplit]
  have := abs_add (t2 - (t1 - c2)) (t1 - x * c1)
  linarith

/-- The binary32 remap `x * 1.05f - 0.025f` stays within `2^-22 * (|x| + 1)` of the
exact `1.05 * x - 0.025`. -/
theorem dry_wet_f32_error (x : ℚ) :
    |f32 (f32 (x * f32 1.05) - f32 0.025) - (1.05 * x - 0.025)| ≤ 2 ^ (-22 : ℤ) * (|x| + 1) := by
  have e1 : (1.05 : ℚ) = 21 / 20 := by norm_num
  have e2 : (0.025 : ℚ) = 1 / 40 := by norm_num
  rw [e1, e2, f32_lit_1_05, f32_lit_0_025]
  have h := dry_wet_error_algebra x (4404019 / 4194304) (13421773 / 536870912)
    (f32 (x * (4404019 / 4194304)))
    (f32 (f32 (x * (4404019 / 4194304)) - 13421773 / 536870912))
    (2 ^ (-24 : ℤ)) (2 ^ (-150 : ℤ)) (by positivity) (by norm_num) (by norm_num)
    (f32_error _) (f32_error _)
  have hx0 : 0 ≤ |x| := abs_nonneg x
  have hsplit : f32 (f32 (x * (4404019 / 4194304)) - 13421773 / 536870912) -
      (21 / 20 * x - 1 / 40) =
      (f32 (f32 (x * (4404019 / 4194304)) - 13421773 / 536870912) -
        (x * (4404019 / 4194304) - 13421773 / 536870912)) +
      (x * (4404019 / 4194304 - 21 / 20) + (1 / 40 - 13421773 / 536870912)) := by ring
  have hx1 : |x * (4404019 / 4194304 - 21 / 20) + (1 / 40 - 13421773 / 536870912)| ≤
      |x| * (1 / 20971520) + 1 / 2684354560 := by
    refine le_trans (abs_add _ _) ?_
    rw [abs_mul]
    have a1 : |(4404019 / 4194304 - 21 / 20 : ℚ)| = 1 / 20971520 := by
      rw [abs_of_neg] <;> norm_num
    have a2 : |(1 / 40 - 13421773 / 536870912 : ℚ)| = 1 / 2684354560 := by
      rw [abs_of_neg] <;> norm_num
    rw [a1, a2]
  rw [hsplit]
  refine le_trans (abs_add _ _) ?_
  have hu : (2 : ℚ) ^ (-24 : ℤ) = 1 / 16777216 := by norm_num
  have h22 : (2 : ℚ) ^ (-22 : ℤ) = 1 / 4194304 := by norm_num
  have hη : (2 : ℚ) ^ (-150 : ℤ) ≤ 1 / 2 ^ 100 := by norm_num
  have hη0 : (0 : ℚ) ≤ 2 ^ (-150 : ℤ) := by positivity
  rw [hu] at h
  rw [h22]
  generalize (2 : ℚ) ^ (-150 : ℤ) = η at h hη hη0
  generalize |x| = X at h hx0 hx1
  norm_num at hη
  linarith

/-- The binary32 dry/wet value at the three points of the knob: at `x = 1/2` it
is `1/2 - 2^-25`; at `x = 0` the pre-clamp value is `-0.025f` and the output 0; at
`x = 1` the pre-clamp value is `1.025f` and the output 1. -/
theorem dry_wet_f32_points (pot cv : ℚ) :
    (f32 (pot + f32 (cv * f32 2.0)) = 1 / 2 → dry_wet_fl f32 pot cv = 1 / 2 - 2 ^ (-25 : ℤ)) ∧
    (f32 (pot + f32 (cv * f32 2.0)) = 0 →
      f32 (f32 (f32 (pot + f32 (cv * f32 2.0)) * f32 1.05) - f32 0.025) = -f32 0.025 ∧
      dry_wet_fl f32 pot cv = 0) ∧
    (f32 (pot + f32 (cv * f32 2.0)) = 1 →
      f32 (f32 (f32 (pot + f32 (cv * f32 2.0)) * f32 1.05) - f32 0.025) = f32 1.025 ∧
      dry_wet_fl f32 pot cv = 1) := by
  have e1 : (1.05 : ℚ) = 21 / 20 := by norm_num
  have e2 : (0.025 : ℚ) = 1 / 40 := by norm_num
  have e3 : (1.025 : ℚ) = 41 / 40 := by norm_num
  have e0 : (0.0 : ℚ) = 0 := by norm_num
  have e10 : (1.0 : ℚ) = 1 := by norm_num
  simp only [dry_wet_fl, e1, e2, e3, e0, e10, f32_lit_1_05, f32_lit_0_025, f32_lit_1_025,
    f32_zero, f32_lit_1]
  refine ⟨fun h => ?_, fun h => ?_, fun h => ?_⟩
  · rw [h, show ((1 : ℚ) / 2 * (4404019 / 4194304)) = 4404019 / 8388608 by norm_num,
      f32_dw_half_mul,
      show ((4404019 : ℚ) / 8388608 - 13421773 / 536870912) = 268435443 / 536870912 by norm_num,
      f32_dw_half_sub]
    norm_num [CONSTRAIN]
  · rw [h, zero_mul, f32_zero,
      show ((0 : ℚ) - 13421773 / 536870912) = -13421773 / 536870912 by norm_num,
      f32_dw_zero_sub]
    norm_num [CONSTRAIN]
  · rw [h, one_mul, f32_dw_one_mul,
      show ((4404019 : ℚ) / 4194304 - 13421773 / 536870912) = 550292659 / 536870912 by norm_num,
      f32_dw_one_sub]
    norm_num [CONSTRAIN]

/-- C11 as stated fails on the binary32 program: with the smoothed balance pot at
1/2 and the smoothed balance CV at 0 the combined input is exactly 1/2, and the
dry/wet output `0.5f * 1.05f - 0.025f` is `1/2 - 2^-25`, not 1/2. -/
theorem C11_midpoint_not_exact_in_binary32 :
    f32 (1 / 2 + f32 (0 * f32 2.0)) = 1 / 2 ∧
    dry_wet_fl f32 (1 / 2) 0 = 1 / 2 - 2 ^ (-25 : ℤ) ∧
    dry_wet_fl f32 (1 / 2) 0 ≠ 1 / 2 := by
  have hx : f32 (1 / 2 + f32 (0 * f32 2.0)) = 1 / 2 := by
    rw [zero_mul, f32_zero, add_zero, f32_lit_0_5]
  have h := (dry_wet_f32_points (1 / 2) 0).1 hx
  refine ⟨hx, h, ?_⟩
  rw [h]
  norm_num

/-- C11 amended: on the binary32 program, with `x` the float sum of the smoothed
balance pot and twice the smoothed balance CV, the dry/wet output is
`clamp(x * 1.05f - 0.025f, 0, 1)` in binary32 operations, within
`2^-22 * (|x| + 1)` of the exact `clamp(1.05*x - 0.025, 0, 1)`; for `x = 0.5` it is
`0.5 - 2^-25`, for `x = 0` the pre-clamp value is `-0.025f` and the output 0, for
`x = 1` the pre-clamp value is `1.025f` and the output 1. -/
theorem C11_dry_wet_remap_binary32 (pot cv x : ℚ) (hx : x = f32 (pot + f32 (cv * f32 2.0))) :
    dry_wet_fl f32 pot cv = CONSTRAIN (f32 (f32 (x * f32 1.05) - f32 0.025)) 0 1 ∧
    |dry_wet_fl f32 pot cv - CONSTRAIN (1.05 * x - 0.025) 0 1| ≤ 2 ^ (-22 : ℤ) * (|x| + 1) ∧
    (x = 1 / 2 → dry_wet_fl f32 pot cv = 1 / 2 - 2 ^ (-25 : ℤ)) ∧
    (x = 0 → f32 (f32 (x * f32 1.05) - f32 0.025) = -f32 0.025 ∧ dry_wet_fl f32 pot cv = 0) ∧
    (x = 1 → f32 (f32 (x * f32 1.05) - f32 0.025) = f32 1.025 ∧ dry_wet_fl f32 pot cv = 1) := by
  have hdef : dry_wet_fl f32 pot cv = CONSTRAIN (f32 (f32 (x * f32 1.05) - f32 0.025)) 0 1 := by
    have e0 : (0.0 : ℚ) = 0 := by norm_num
    have e10 : (1.0 : ℚ) = 1 := by norm_num
    simp only [dry_wet_fl, hx, e0, e10, f32_zero, f32_lit_1]
  have hp := dry_wet_f32_points pot cv
  rw [← hx] at hp
  refine ⟨hdef, ?_, hp.1, hp.2.1, hp.2.2⟩
  rw [hdef]
  exact le_trans (CONSTRAIN_lipschitz _ _) (dry_wet_f32_error x)

/-- C11 amended with the balance pot at 1/2, 0 and 1 and the balance CV at 0: the
output is `1/2 - 2^-25`, 0 and 1. -/
theorem C11_dry_wet_remap_binary32_witness :
    dry_wet_fl f32 (1 / 2) 0 = 1 / 2 - 2 ^ (-25 : ℤ) ∧
    dry_wet_fl f32 0 0 = 0 ∧
    dry_wet_fl f32 1 0 = 1 := by
  have h5 : (1 / 2 : ℚ) = f32 (1 / 2 + f32 (0 * f32 2.0)) := by
    rw [zero_mul, f32_zero, add_zero, f32_lit_0_5]
  have h0 : (0 : ℚ) = f32 (0 + f32 (0 * f32 2.0)) := by
    rw [zero_mul, f32_zero, add_zero, f32_zero]
  have h1 : (1 : ℚ) = f32 (1 + f32 (0 * f32 2.0)) := by
    rw [zero_mul, f32_zero, add_zero, f32_lit_1]
  exact ⟨(C11_dry_wet_remap_binary32 (1 / 2) 0 (1 / 2) h5).2.2.1 rfl,
    ((C11_dry_wet_remap_binary32 0 0 0 h0).2.2.2.1 rfl).2,
    ((C11_dry_wet_remap_binary32 1 0 1 h1).2.2.2.2 rfl).2⟩

/-- C12: each of position, texture, density, size, reverb, feedback and
stereo_spread emitted by `Read` is `clamp(pot + 2*cv, 0, 1)`, with `pot` and `cv`
the parameter's smoothed potentiometer channel and smoothed CV channel as the
same call of `Read` leaves them. -/
theorem C12_pot_plus_two_cv (CV_FLIP : Bool) (lut : ℕ → ℚ) (adc_ : Adc) (pots_adc_ : PotsAdc)
    (gate_input_ : GateInput) (s : CvScaler) (parameters : Parameters) :
    (Read CV_FLIP lut adc_ pots_adc_ gate_input_ s parameters).2.position =
      CONSTRAIN ((Read CV_FLIP lut adc_ pots_adc_ gate_input_ s parameters).1.smoothed_adc_value_
          (ADC_CHANNEL_LAST + ADC_POSITION_POTENTIOMETER) +
        2 * (Read CV_FLIP lut adc_ pots_adc_ gate_input_ s parameters).1.smoothed_adc_value_
          ADC_POSITION_CV) 0 1 ∧
    (Read CV_FLIP lut adc_ pots_adc_ gate_input_ s parameters).2.texture =
      CONSTRAIN ((Read CV_FLIP lut adc_ pots_adc_ gate_input_ s parameters).1.smoothed_adc_value_
          (ADC_CHANNEL_LAST + ADC_TEXTURE_POTENTIOMETER) +
        2 * (Read CV_FLIP lut adc_ pots_adc_ gate_input_ s parameters).1.smoothed_adc_value_
          ADC_TEXTURE_CV) 0 1 ∧
    (Read CV_FLIP lut adc_ pots_adc_ gate_input_ s parameters).2.density =
      CONSTRAIN ((Read CV_FLIP lut adc_ pots_adc_ gate_input_ s parameters).1.smoothed_adc_value_
          (ADC_CHANNEL_LAST + ADC_DENSITY_POTENTIOMETER) +
        2 * (Read CV_FLIP lut adc_ pots_adc_ gate_input_ s parameters).1.smoothed_adc_value_
          ADC_DENSITY_CV) 0 1 ∧
    (Read CV_FLIP lut adc_ pots_adc_ gate_input_ s parameters).2.size =
      CONSTRAIN ((Read CV_FLIP lut adc_ pots_adc_ gate_input_ s parameters).1.smoothed_adc_value_
          ADC_GRAIN_POTENTIOMETER +
        2 * (Read CV_FLIP lut adc_ pots_adc_ gate_input_ s parameters).1.smoothed_adc_value_
          ADC_GRAIN_CV) 0 1 ∧
    (Read CV_FLIP lut adc_ pots_adc_ gate_input_ s parameters).2.reverb =
      CONSTRAIN ((Read CV_FLIP lut adc_ pots_adc_ gate_input_ s parameters).1.smoothed_adc_value_
          (ADC_CHANNEL_LAST + ADC_REVERB_POTENTIOMETER) +
        2 * (Read CV_FLIP lut adc_ pots_adc_ gate_input_ s parameters).1.smoothed_adc_value_
          ADC_REVERB_CV) 0 1 ∧
    (Read CV_FLIP lut adc_ pots_adc_ gate_input_ s parameters).2.feedback =
      CONSTRAIN ((Read CV_FLIP lut adc_ pots_adc_ gate_input_ s parameters).1.smoothed_adc_value_
          (ADC_CHANNEL_LAST + ADC_FEEDBACK_POTENTIOMETER) +
        2 * (Read CV_FLIP lut adc_ pots_adc_ gate_input_ s parameters).1.smoothed_adc_value_
          ADC_FEEDBACK_CV) 0 1 ∧
    (Read CV_FLIP lut adc_ pots_adc_ gate_input_ s parameters).2.stereo_spread =
      CONSTRAIN ((Read CV_FLIP lut adc_ pots_adc_ gate_input_ s parameters).1.smoothed_adc_value_
          (ADC_CHANNEL_LAST + ADC_SPREAD_POTENTIOMETER) +
        2 * (Read CV_FLIP lut adc_ pots_adc_ gate_input_ s parameters).1.smoothed_adc_value_
          ADC_SPREAD_CV) 0 1 := by
  have e2 : (2.0 : ℚ) = 2 := by norm_num
  have e0 : (0.0 : ℚ) = 0 := by norm_num
  have e1 : (1.0 : ℚ) = 1 := by norm_num
  simp only [Read, e2, e0, e1, mul_comm _ (2 : ℚ), and_self]

/-! ## C13: quantized pitch discards the table contribution -/

theorem Read_smoothed_eq (CV_FLIP : Bool) (lut : ℕ → ℚ) (adc_ : Adc) (pots_adc_ : PotsAdc)
    (gate_input_ : GateInput) (s : CvScaler) (parameters : Parameters) :
    (Read CV_FLIP lut adc_ pots_adc_ gate_input_ s parameters).1.smoothed_adc_value_ =
      (dejitter_stage s.voct_cv_dejittered_ s.quantize_dejitter_ s.pot_dejitter_
        (smooth_loop CV_FLIP adc_ pots_adc_ s.calibration_data_ ADC_CHANNELS_TOTAL
          s.smoothed_adc_value_)).2.2 := rfl

/-- The two channels the dejitter stage writes: each is the output of its own
filter on the incoming value when the flag is set, and the incoming value
otherwise. -/
theorem dejitter_stage_channels (flag : Bool) (q p : CirrusExpFltr) (sm : ℕ → ℚ) :
    (dejitter_stage flag q p sm).2.2 ADC_VOCT_CV =
      (if flag then (q.process (sm ADC_VOCT_CV)).2 else sm ADC_VOCT_CV) ∧
    (dejitter_stage flag q p sm).2.2 pitch_pot =
      (if flag then (p.process (sm pitch_pot)).2 else sm pitch_pot) := by
  unfold dejitter_stage
  cases flag with
  | false => simp
  | true =>
    have h : pitch_pot ≠ ADC_VOCT_CV := by decide
    have h' : ADC_VOCT_CV ≠ pitch_pot := by decide
    simp only [if_true]
    constructor
    · rw [Function.update_noteq h', Function.update_same]
    · rw [Function.update_same, Function.update_noteq h]

theorem track_note_congr (u d : Bool) (sm1 sm2 : ℕ → ℚ) (n : ℚ)
    (h : sm1 ADC_VOCT_CV = sm2 ADC_VOCT_CV) : track_note u d sm1 n = track_note u d sm2 n := by
  simp only [track_note, h]

/-- The smoothed V/oct and pitch-pot values `Read` leaves do not depend on the
smoothed pitch-CV value of the prior state nor on `pitch_cv_used_`. -/
theorem Read_smoothed_pitch_cv_irrelevant (CV_FLIP : Bool) (lut1 lut2 : ℕ → ℚ) (adc_ : Adc)
    (pots_adc_ : PotsAdc) (gate_input_ : GateInput) (s : CvScaler) (p1 p2 : Parameters) (c : ℚ)
    (b : Bool) :
    (Read CV_FLIP lut2 adc_ pots_adc_ gate_input_
        { s with
          pitch_cv_used_ := b
          smoothed_adc_value_ := Function.update s.smoothed_adc_value_ ADC_PITCH_CV c }
        p2).1.smoothed_adc_value_ ADC_VOCT_CV =
      (Read CV_FLIP lut1 adc_ pots_adc_ gate_input_ s p1).1.smoothed_adc_value_ ADC_VOCT_CV ∧
    (Read CV_FLIP lut2 adc_ pots_adc_ gate_input_
        { s with
          pitch_cv_used_ := b
          smoothed_adc_value_ := Function.update s.smoothed_adc_value_ ADC_PITCH_CV c }
        p2).1.smoothed_adc_value_ pitch_pot =
      (Read CV_FLIP lut1 adc_ pots_adc_ gate_input_ s p1).1.smoothed_adc_value_ pitch_pot := by
  have h10 : ADC_VOCT_CV ≠ ADC_PITCH_CV := by decide
  have h13 : pitch_pot ≠ ADC_PITCH_CV := by decide
  simp only [Read_smoothed_eq]
  constructor
  · rw [(dejitter_stage_channels _ _ _ _).1, (dejitter_stage_channels _ _ _ _).1,
      smooth_loop_apply, smooth_loop_apply, Function.update_noteq h10]
  · rw [(dejitter_stage_channels _ _ _ _).2, (dejitter_stage_channels _ _ _ _).2,
      smooth_loop_apply, smooth_loop_apply, Function.update_noteq h13]

/-- C13: in quantized mode the pitch `Read` emits is the stored quantized note,
an integer, clamped to `[-48,48]`; and a second `Read` on the same driver
readings, from a state that differs from the first only in the smoothed
pitch-CV value and the `pitch_cv_used_` flag, with another pitch lookup table
(and another incoming `Parameters` record), emits the same pitch. -/
theorem C13_quantized_pitch_discards_table (CV_FLIP : Bool) (lut1 lut2 : ℕ → ℚ) (adc_ : Adc)
    (pots_adc_ : PotsAdc) (gate_input_ : GateInput) (s : CvScaler) (p1 p2 : Parameters) (c : ℚ)
    (b : Bool) (hq : s.voct_cv_quantized_ = true) :
    (Read CV_FLIP lut1 adc_ pots_adc_ gate_input_ s p1).2.pitch =
      CONSTRAIN (Read CV_FLIP lut1 adc_ pots_adc_ gate_input_ s p1).1.note_ (-48) 48 ∧
    (∃ z : ℤ, (Read CV_FLIP lut1 adc_ pots_adc_ gate_input_ s p1).1.note_ = (z : ℚ)) ∧
    (Read CV_FLIP lut2 adc_ pots_adc_ gate_input_
        { s with
          pitch_cv_used_ := b
          smoothed_adc_value_ := Function.update s.smoothed_adc_value_ ADC_PITCH_CV c }
        p2).2.pitch =
      (Read CV_FLIP lut1 adc_ pots_adc_ gate_input_ s p1).2.pitch := by
  have h1 := Read_note_quantized CV_FLIP lut1 adc_ pots_adc_ gate_input_ s p1 hq
  have h2 := Read_note_quantized CV_FLIP lut2 adc_ pots_adc_ gate_input_
    { s with
      pitch_cv_used_ := b
      smoothed_adc_value_ := Function.update s.smoothed_adc_value_ ADC_PITCH_CV c } p2 hq
  have hs := Read_smoothed_pitch_cv_irrelevant CV_FLIP lut1 lut2 adc_ pots_adc_ gate_input_ s
    p1 p2 c b
  refine ⟨?_, ⟨_, h1.1⟩, ?_⟩
  · rw [h1.2]; norm_num
  · rw [h2.2, h1.2, h2.1, h1.1, hs.2, track_note_congr _ _ _ _ _ hs.1]

/-- C13 on the quantized state with note 0.6: with the pitch CV in use at
smoothed value 1/3 and the table `n ↦ n`, `Read` emits the same pitch as with the
pitch CV unused at 0 and the zero table. -/
theorem C13_quantized_pitch_discards_table_witness :
    (scaler_quantized 0.6).voct_cv_quantized_ = true ∧
    (Read false (fun n => (n : ℚ)) (adc_const (41 / 100)) (pots_const 0) gate_idle
        { scaler_quantized 0.6 with
          pitch_cv_used_ := true
          smoothed_adc_value_ :=
            Function.update (scaler_quantized 0.6).smoothed_adc_value_ ADC_PITCH_CV (1 / 3) }
        parameters0).2.pitch =
      (Read false (fun _ => 0) (adc_const (41 / 100)) (pots_const 0) gate_idle
        (scaler_quantized 0.6) parameters0).2.pitch :=
  ⟨rfl, (C13_quantized_pitch_discards_table false (fun _ => 0) (fun n => (n : ℚ))
    (adc_const (41 / 100)) (pots_const 0) gate_idle (scaler_quantized 0.6) parameters0
    parameters0 (1 / 3) true rfl).2.2⟩

/-! ## C14: freeze -/

/-- C14: the `freeze` flag `Read` leaves in `Parameters` is true when the gate
driver reports a freeze rising edge, false when it reports a freeze falling edge
and no rising edge, and the incoming value of `parameters.freeze` when it reports
neither; this is the value of the same call, whatever the state (no delay
line). -/
theorem C14_freeze_follows_edges (CV_FLIP : Bool) (lut : ℕ → ℚ) (adc_ : Adc)
    (pots_adc_ : PotsAdc) (gate_input_ : GateInput) (s : CvScaler) (parameters : Parameters) :
    (gate_input_.freeze_rising_edge = true →
      (Read CV_FLIP lut adc_ pots_adc_ gate_input_ s parameters).2.freeze = true) ∧
    (gate_input_.freeze_rising_edge = false → gate_input_.freeze_falling_edge = true →
      (Read CV_FLIP lut adc_ pots_adc_ gate_input_ s parameters).2.freeze = false) ∧
    (gate_input_.freeze_rising_edge = false → gate_input_.freeze_falling_edge = false →
      (Read CV_FLIP lut adc_ pots_adc_ gate_input_ s parameters).2.freeze = parameters.freeze) := by
  simp only [Read]
  refine ⟨fun h => ?_, fun h1 h2 => ?_, fun h1 h2 => ?_⟩
  · simp [h]
  · simp [h1, h2]
  · simp [h1, h2]

/-- C14 on the all-zero state: a rising edge sets freeze from false to true, a
falling edge sets it from true to false, and with no edge a true freeze stays
true. -/
theorem C14_freeze_follows_edges_witness :
    (Read false (fun _ => 0) (adc_const 0) (pots_const 0) (gate_freeze true false) scaler0
      parameters0).2.freeze = true ∧
    (Read false (fun _ => 0) (adc_const 0) (pots_const 0) (gate_freeze false true) scaler0
      { parameters0 with freeze := true }).2.freeze = false ∧
    (Read false (fun _ => 0) (adc_const 0) (pots_const 0) (gate_freeze false false) scaler0
      { parameters0 with freeze := true }).2.freeze = true :=
  ⟨(C14_freeze_follows_edges false (fun _ => 0) (adc_const 0) (pots_const 0)
      (gate_freeze true false) scaler0 parameters0).1 rfl,
    (C14_freeze_follows_edges false (fun _ => 0) (adc_const 0) (pots_const 0)
      (gate_freeze false true) scaler0 { parameters0 with freeze := true }).2.1 rfl rfl,
    (C14_freeze_follows_edges false (fun _ => 0) (adc_const 0) (pots_const 0)
      (gate_freeze false false) scaler0 { parameters0 with freeze := true }).2.2 rfl rfl⟩

/-! ## C15: offset calibration over the whole channel range -/

/-- What `CalibrateOffsets` stores: for every index below `ADC_CHANNELS_TOTAL` the
CV-bank reading at that same index, potentiometer channels included; other
entries are untouched. -/
theorem CalibrateOffsets_stores_cv_bank (adc_ : Adc) (s : CvScaler) (i : ℕ) :
    (CalibrateOffsets adc_ s).calibration_data_.offset i =
      if i < ADC_CHANNELS_TOTAL then adc_.float_value i else s.calibration_data_.offset i := by
  simp only [CalibrateOffsets, CalibrateOffsets_loop_apply]

/-- On the CV-type channels `CalibrateOffsets` stores the reading `Read` fetches
for the channel. -/
theorem CalibrateOffsets_cv_channels (adc_ : Adc) (pots_adc_ : PotsAdc) (s : CvScaler) (i : ℕ)
    (hi : i < ADC_CHANNEL_LAST) :
    (CalibrateOffsets adc_ s).calibration_data_.offset i = raw_value adc_ pots_adc_ i := by
  have h : i < ADC_CHANNELS_TOTAL := by
    have : ADC_CHANNEL_LAST ≤ ADC_CHANNELS_TOTAL := by decide
    omega
  rw [CalibrateOffsets_stores_cv_bank, if_pos h, raw_value, if_pos hi]

/-- C15 fails on the code: for the first potentiometer channel
(`i = ADC_CHANNEL_LAST`), with the CV bank reading 7/10 beyond its last channel
and the position pot reading 3/10, `CalibrateOffsets` stores the CV-bank value
at index 12, not the reading 3/10 that `Read` fetches for the channel; and the
stored offset changes with the CV-bank value at index 12 alone, so that
out-of-range index is read. -/
theorem C15_pot_offsets_read_cv_bank_out_of_range :
    ADC_CHANNEL_LAST < ADC_CHANNELS_TOTAL ∧
    raw_value (adc_const (7 / 10)) (pots_const (3 / 10)) ADC_CHANNEL_LAST = 3 / 10 ∧
    (CalibrateOffsets (adc_const (7 / 10)) scaler0).calibration_data_.offset ADC_CHANNEL_LAST =
      7 / 10 ∧
    (CalibrateOffsets
        { float_value := fun i => if i < ADC_CHANNEL_LAST then 7 / 10 else 1 / 10 }
        scaler0).calibration_data_.offset ADC_CHANNEL_LAST = 1 / 10 := by
  refine ⟨by decide, ?_, ?_, ?_⟩
  · simp [raw_value, pots_const]
  · rw [CalibrateOffsets_stores_cv_bank]
    simp [adc_const]
  · rw [CalibrateOffsets_stores_cv_bank]
    simp

/-! ## C16: note tracking -/

theorem Read_dejitter_filters (CV_FLIP : Bool) (lut : ℕ → ℚ) (adc_ : Adc) (pots_adc_ : PotsAdc)
    (gate_input_ : GateInput) (s : CvScaler) (parameters : Parameters) :
    (Read CV_FLIP lut adc_ pots_adc_ gate_input_ s parameters).1.quantize_dejitter_ =
      (dejitter_stage s.voct_cv_dejittered_ s.quantize_dejitter_ s.pot_dejitter_
        (smooth_loop CV_FLIP adc_ pots_adc_ s.calibration_data_ ADC_CHANNELS_TOTAL
          s.smoothed_adc_value_)).1 ∧
    (Read CV_FLIP lut adc_ pots_adc_ gate_input_ s parameters).1.pot_dejitter_ =
      (dejitter_stage s.voct_cv_dejittered_ s.quantize_dejitter_ s.pot_dejitter_
        (smooth_loop CV_FLIP adc_ pots_adc_ s.calibration_data_ ADC_CHANNELS_TOTAL
          s.smoothed_adc_value_)).2.1 := ⟨rfl, rfl⟩

/-- C17: `CirrusExpFltr::process(x)` on a filter with stored average `a` returns
and stores `(98*a + x)/99`, i.e. `(98/99)*a + (1/99)*x`.  In `Read`, when
`voct_cv_dejittered_` is set, the smoothed V/oct channel becomes the output of
`quantize_dejitter_` on its freshly smoothed value and the smoothed pitch-pot
channel the output of `pot_dejitter_` on its freshly smoothed value, each filter
storing its own output, every other channel keeping its freshly smoothed value;
when the flag is clear both filters and all channels are left as the acquisition
loop produced them. -/
theorem C17_dejitter_stage (CV_FLIP : Bool) (lut : ℕ → ℚ) (adc_ : Adc) (pots_adc_ : PotsAdc)
    (gate_input_ : GateInput) (s : CvScaler) (parameters : Parameters) :
    (∀ (f : CirrusExpFltr) (x : ℚ),
      (f.process x).2 = (98 * f.sum + x) / 99 ∧ (f.process x).1.sum = (98 * f.sum + x) / 99 ∧
      (f.process x).2 = 98 / 99 * f.sum + 1 / 99 * x) ∧
    (s.voct_cv_dejittered_ = true →
      (Read CV_FLIP lut adc_ pots_adc_ gate_input_ s parameters).1.smoothed_adc_value_ ADC_VOCT_CV =
        (98 * s.quantize_dejitter_.sum +
          smooth_loop CV_FLIP adc_ pots_adc_ s.calibration_data_ ADC_CHANNELS_TOTAL
            s.smoothed_adc_value_ ADC_VOCT_CV) / 99 ∧
      (Read CV_FLIP lut adc_ pots_adc_ gate_input_ s parameters).1.quantize_dejitter_.sum =
        (Read CV_FLIP lut adc_ pots_adc_ gate_input_ s parameters).1.smoothed_adc_value_
          ADC_VOCT_CV ∧
      (Read CV_FLIP lut adc_ pots_adc_ gate_input_ s parameters).1.smoothed_adc_value_ pitch_pot =
        (98 * s.pot_dejitter_.sum +
          smooth_loop CV_FLIP adc_ pots_adc_ s.calibration_data_ ADC_CHANNELS_TOTAL
            s.smoothed_adc_value_ pitch_pot) / 99 ∧
      (Read CV_FLIP lut adc_ pots_adc_ gate_input_ s parameters).1.pot_dejitter_.sum =
        (Read CV_FLIP lut adc_ pots_adc_ gate_input_ s parameters).1.smoothed_adc_value_
          pitch_pot ∧
      ∀ i, i ≠ ADC_VOCT_CV → i ≠ pitch_pot →
        (Read CV_FLIP lut adc_ pots_adc_ gate_input_ s parameters).1.smoothed_adc_value_ i =
          smooth_loop CV_FLIP adc_ pots_adc_ s.calibration_data_ ADC_CHANNELS_TOTAL
            s.smoothed_adc_value_ i) ∧
    (s.voct_cv_dejittered_ = false →
      (Read CV_FLIP lut adc_ pots_adc_ gate_input_ s parameters).1.quantize_dejitter_ =
        s.quantize_dejitter_ ∧
      (Read CV_FLIP lut adc_ pots_adc_ gate_input_ s parameters).1.pot_dejitter_ =
        s.pot_dejitter_ ∧
      (Read CV_FLIP lut adc_ pots_adc_ gate_input_ s parameters).1.smoothed_adc_value_ =
        smooth_loop CV_FLIP adc_ pots_adc_ s.calibration_data_ ADC_CHANNELS_TOTAL
          s.smoothed_adc_value_) := by
  have hp : ∀ (f : CirrusExpFltr) (x : ℚ), (f.process x).2 = (98 * f.sum + x) / 99 ∧
      (f.process x).1.sum = (98 * f.sum + x) / 99 := by
    intro f x
    simp only [CirrusExpFltr.process, mul_comm, and_self]
  have hf := Read_dejitter_filters CV_FLIP lut adc_ pots_adc_ gate_input_ s parameters
  refine ⟨fun f x => ⟨(hp f x).1, (hp f x).2, ?_⟩, fun hd => ?_, fun hd => ?_⟩
  · rw [(hp f x).1]; ring
  · have hc := dejitter_stage_channels true s.quantize_dejitter_ s.pot_dejitter_
      (smooth_loop CV_FLIP adc_ pots_adc_ s.calibration_data_ ADC_CHANNELS_TOTAL
        s.smoothed_adc_value_)
    simp only [if_true] at hc
    rw [hf.1, hf.2, Read_smoothed_eq, hd, hc.1, hc.2, (hp _ _).1, (hp _ _).1]
    refine ⟨rfl, ?_, rfl, ?_, fun i h1 h2 => ?_⟩
    · simp only [dejitter_stage, if_true]
      exact (hp _ _).2
    · have h : pitch_pot ≠ ADC_VOCT_CV := by decide
      simp only [dejitter_stage, if_true]
      rw [Function.update_noteq h]
      exact (hp _ _).2
    · exact dejitter_stage_apply _ _ _ _ _ (Or.inr ⟨h1, h2⟩)
  · rw [hf.1, hf.2, Read_smoothed_eq, hd]
    simp [dejitter_stage]

/-- C17 on the all-zero state with every reading at 1: with dejitter on, the
V/oct channel (freshly smoothed to 1, filter average 0) becomes 1/99 and that is
the new filter average; with dejitter off the filter is untouched. -/
theorem C17_dejitter_stage_witness :
    ((Read false (fun _ => 0) (adc_const 1) (pots_const 1) gate_idle
        { scaler0 with voct_cv_dejittered_ := true } parameters0).1.smoothed_adc_value_
          ADC_VOCT_CV = 1 / 99 ∧
      (Read false (fun _ => 0) (adc_const 1) (pots_const 1) gate_idle
        { scaler0 with voct_cv_dejittered_ := true } parameters0).1.quantize_dejitter_.sum =
          1 / 99) ∧
    (Read false (fun _ => 0) (adc_const 1) (pots_const 1) gate_idle scaler0
      parameters0).1.quantize_dejitter_ = scaler0.quantize_dejitter_ := by
  have h1 := (C17_dejitter_stage false (fun _ => 0) (adc_const 1) (pots_const 1) gate_idle
    { scaler0 with voct_cv_dejittered_ := true } parameters0).2.1 rfl
  have h0 := (C17_dejitter_stage false (fun _ => 0) (adc_const 1) (pots_const 1) gate_idle
    scaler0 parameters0).2.2 rfl
  have hv : (Read false (fun _ => 0) (adc_const 1) (pots_const 1) gate_idle
      { scaler0 with voct_cv_dejittered_ := true } parameters0).1.smoothed_adc_value_
        ADC_VOCT_CV = 1 / 99 := by
    rw [h1.1, smooth_loop_apply]
    norm_num [transformed_value, transformation, transformations_, raw_value, adc_const,
      scaler0, cal0]
  exact ⟨⟨hv, by rw [h1.2.1, hv]⟩, h0.1⟩

/-! ## C18: the metering level -/

/-- The level `output_level()` returns after a `Read`, in terms of the smoothed
level channel that `Read` leaves (cv_scaler.cc lines 188-190, cv_scaler.h lines
111-114). -/
theorem Read_output_level (CV_FLIP : Bool) (lut : ℕ → ℚ) (adc_ : Adc) (pots_adc_ : PotsAdc)
    (gate_input_ : GateInput) (s : CvScaler) (parameters : Parameters) :
    output_level (Read CV_FLIP lut adc_ pots_adc_ gate_input_ s parameters).1 =
      (1 - CONSTRAIN ((Read CV_FLIP lut adc_ pots_adc_ gate_input_ s
        parameters).1.smoothed_adc_value_ ADC_VCA_OUT_LEVEL) 0 1) ^ 2 := by
  have e0 : (0.0 : ℚ) = 0 := by norm_num
  have e1 : (1.0 : ℚ) = 1 := by norm_num
  simp only [output_level, Read, e0, e1]
  ring

/-- The level channel is a plain one-pole channel with coefficient 0.1 in both
builds. -/
theorem Read_level_smoothed (CV_FLIP : Bool) (lut : ℕ → ℚ) (adc_ : Adc) (pots_adc_ : PotsAdc)
    (gate_input_ : GateInput) (s : CvScaler) (parameters : Parameters) :
    (Read CV_FLIP lut adc_ pots_adc_ gate_input_ s parameters).1.smoothed_adc_value_
        ADC_VCA_OUT_LEVEL =
      s.smoothed_adc_value_ ADC_VCA_OUT_LEVEL +
        1 / 10 * (adc_.float_value ADC_VCA_OUT_LEVEL - s.smoothed_adc_value_ ADC_VCA_OUT_LEVEL) := by
  rw [Read_smoothed _ _ _ _ _ _ _ ADC_VCA_OUT_LEVEL (by decide)
    (Or.inr ⟨by decide, by decide⟩)]
  cases CV_FLIP <;>
    norm_num [transformed_value, transformation, transformations_, raw_value]

/-- One `Read` keeps the smoothed level inside the unit interval when it was there
and the level reading is a normalized one. -/
theorem Read_level_in_unit (CV_FLIP : Bool) (lut : ℕ → ℚ) (adc_ : Adc) (pots_adc_ : PotsAdc)
    (gate_input_ : GateInput) (s : CvScaler) (parameters : Parameters)
    (hs : 0 ≤ s.smoothed_adc_value_ ADC_VCA_OUT_LEVEL ∧ s.smoothed_adc_value_ ADC_VCA_OUT_LEVEL ≤ 1)
    (hr : 0 ≤ adc_.float_value ADC_VCA_OUT_LEVEL ∧ adc_.float_value ADC_VCA_OUT_LEVEL ≤ 1) :
    0 ≤ (Read CV_FLIP lut adc_ pots_adc_ gate_input_ s parameters).1.smoothed_adc_value_
        ADC_VCA_OUT_LEVEL ∧
    (Read CV_FLIP lut adc_ pots_adc_ gate_input_ s parameters).1.smoothed_adc_value_
        ADC_VCA_OUT_LEVEL ≤ 1 := by
  rw [Read_level_smoothed]
  constructor <;> linarith [hs.1, hs.2, hr.1, hr.2]

/-- From `Init` on, with normalized level readings, the smoothed level stays inside
the unit interval. -/
theorem run_level_in_unit (CV_FLIP : Bool) (lut : ℕ → ℚ) (adc : ℕ → Adc) (pots : ℕ → PotsAdc)
    (gate : ℕ → GateInput) (s : CvScaler) (calibration_data : CalibrationData) (p : Parameters)
    (hread : ∀ n, 0 ≤ (adc n).float_value ADC_VCA_OUT_LEVEL ∧
      (adc n).float_value ADC_VCA_OUT_LEVEL ≤ 1) (k : ℕ) :
    0 ≤ (run CV_FLIP lut adc pots gate (Init s calibration_data) p k).1.smoothed_adc_value_
        ADC_VCA_OUT_LEVEL ∧
    (run CV_FLIP lut adc pots gate (Init s calibration_data) p k).1.smoothed_adc_value_
        ADC_VCA_OUT_LEVEL ≤ 1 := by
  have h0 : (Init s calibration_data).smoothed_adc_value_ ADC_VCA_OUT_LEVEL = 0 := by
    have hlt : ADC_VCA_OUT_LEVEL < ADC_CHANNELS_TOTAL := by decide
    simp only [Init, if_pos hlt]
  induction k with
  | zero =>
    simp only [run]
    rw [h0]
    exact ⟨le_refl _, zero_le_one⟩
  | succ k ih =>
    rw [run_succ]
    exact Read_level_in_unit _ _ _ _ _ _ _ ih (hread k)

/-- C18: after a `Read` in which the smoothed level channel has value `raw`,
`output_level()` returns `(1 - raw)^2`, for every value `raw` the channel can
take: `Init` puts the channel at 0, every `Read` on a normalized level reading
(in `[0,1]`) keeps it in `[0,1]` and leaves `output_level() = (1 - raw)^2`, and so
does every `Read` of a run that starts at `Init`. -/
theorem C18_output_level_squared_taper (CV_FLIP : Bool) (lut : ℕ → ℚ) :
    (∀ (s : CvScaler) (calibration_data : CalibrationData),
      (Init s calibration_data).smoothed_adc_value_ ADC_VCA_OUT_LEVEL = 0) ∧
    (∀ (adc_ : Adc) (pots_adc_ : PotsAdc) (gate_input_ : GateInput) (s : CvScaler)
      (parameters : Parameters),
      0 ≤ s.smoothed_adc_value_ ADC_VCA_OUT_LEVEL → s.smoothed_adc_value_ ADC_VCA_OUT_LEVEL ≤ 1 →
      0 ≤ adc_.float_value ADC_VCA_OUT_LEVEL → adc_.float_value ADC_VCA_OUT_LEVEL ≤ 1 →
      (0 ≤ (Read CV_FLIP lut adc_ pots_adc_ gate_input_ s parameters).1.smoothed_adc_value_
          ADC_VCA_OUT_LEVEL ∧
        (Read CV_FLIP lut adc_ pots_adc_ gate_input_ s parameters).1.smoothed_adc_value_
          ADC_VCA_OUT_LEVEL ≤ 1) ∧
      output_level (Read CV_FLIP lut adc_ pots_adc_ gate_input_ s parameters).1 =
        (1 - (Read CV_FLIP lut adc_ pots_adc_ gate_input_ s parameters).1.smoothed_adc_value_
          ADC_VCA_OUT_LEVEL) ^ 2) ∧
    (∀ (adc : ℕ → Adc) (pots : ℕ → PotsAdc) (gate : ℕ → GateInput) (s : CvScaler)
      (calibration_data : CalibrationData) (p : Parameters),
      (∀ n, 0 ≤ (adc n).float_value ADC_VCA_OUT_LEVEL ∧
        (adc n).float_value ADC_VCA_OUT_LEVEL ≤ 1) →
      ∀ k, output_level (run CV_FLIP lut adc pots gate (Init s calibration_data) p (k + 1)).1 =
        (1 - (run CV_FLIP lut adc pots gate (Init s calibration_data) p
          (k + 1)).1.smoothed_adc_value_ ADC_VCA_OUT_LEVEL) ^ 2) := by
  have step : ∀ (adc_ : Adc) (pots_adc_ : PotsAdc) (gate_input_ : GateInput) (s : CvScaler)
      (parameters : Parameters),
      0 ≤ s.smoothed_adc_value_ ADC_VCA_OUT_LEVEL → s.smoothed_adc_value_ ADC_VCA_OUT_LEVEL ≤ 1 →
      0 ≤ adc_.float_value ADC_VCA_OUT_LEVEL → adc_.float_value ADC_VCA_OUT_LEVEL ≤ 1 →
      (0 ≤ (Read CV_FLIP lut adc_ pots_adc_ gate_input_ s parameters).1.smoothed_adc_value_
          ADC_VCA_OUT_LEVEL ∧
        (Read CV_FLIP lut adc_ pots_adc_ gate_input_ s parameters).1.smoothed_adc_value_
          ADC_VCA_OUT_LEVEL ≤ 1) ∧
      output_level (Read CV_FLIP lut adc_ pots_adc_ gate_input_ s parameters).1 =
        (1 - (Read CV_FLIP lut adc_ pots_adc_ gate_input_ s parameters).1.smoothed_adc_value_
          ADC_VCA_OUT_LEVEL) ^ 2 := by
    intro adc_ pots_adc_ gate_input_ s parameters h0 h1 r0 r1
    have hu := Read_level_in_unit CV_FLIP lut adc_ pots_adc_ gate_input_ s parameters ⟨h0, h1⟩
      ⟨r0, r1⟩
    refine ⟨hu, ?_⟩
    rw [Read_output_level, CONSTRAIN, if_neg (not_lt.mpr hu.1), if_neg (not_lt.mpr hu.2)]
  have hlt : ADC_VCA_OUT_LEVEL < ADC_CHANNELS_TOTAL := by decide
  refine ⟨fun s c => by simp only [Init, if_pos hlt], step, ?_⟩
  intro adc pots gate s calibration_data p hread k
  have hk := run_level_in_unit CV_FLIP lut adc pots gate s calibration_data p hread k
  rw [run_succ]
  exact (step (adc k) (pots k) (gate k) _ _ hk.1 hk.2 (hread k).1 (hread k).2).2

/-- C18 on a run from `Init` with the level reading at 1/4: after the first `Read`
the smoothed level is 1/40 and `output_level()` is `(39/40)^2`. -/
theorem C18_output_level_squared_taper_witness :
    (run false (fun _ => 0) (fun _ => adc_const (1 / 4)) (fun _ => pots_const 0)
      (fun _ => gate_idle) (Init scaler0 cal0) parameters0 1).1.smoothed_adc_value_
        ADC_VCA_OUT_LEVEL = 1 / 40 ∧
    output_level (run false (fun _ => 0) (fun _ => adc_const (1 / 4)) (fun _ => pots_const 0)
      (fun _ => gate_idle) (Init scaler0 cal0) parameters0 1).1 = (39 / 40) ^ 2 := by
  have hv : (run false (fun _ => 0) (fun _ => adc_const (1 / 4)) (fun _ => pots_const 0)
      (fun _ => gate_idle) (Init scaler0 cal0) parameters0 1).1.smoothed_adc_value_
        ADC_VCA_OUT_LEVEL = 1 / 40 := by
    rw [run_succ, Read_level_smoothed]
    norm_num [run, Init, adc_const]
  have h := (C18_output_level_squared_taper false (fun _ => 0)).2.2 (fun _ => adc_const (1 / 4))
    (fun _ => pots_const 0) (fun _ => gate_idle) scaler0 cal0 parameters0
    (fun _ => by norm_num [adc_const]) 0
  rw [hv] at h
  refine ⟨hv, ?_⟩
  rw [h]
  norm_num

/-! ## C19, C20: the V/oct fit -/

/-- C19: whenever `CalibrateC3` returns true, the `pitch_scale` it stores is less
than -48, hence strictly negative and non-zero. -/
theorem C19_committed_scale_below_minus_48 (adc_ : Adc) (s : CvScaler)
    (h : (CalibrateC3 adc_ s).2 = true) :
    (CalibrateC3 adc_ s).1.calibration_data_.pitch_scale < -48 ∧
    (CalibrateC3 adc_ s).1.calibration_data_.pitch_scale < 0 := by
  have hz : (-0.0 : ℚ) = 0 := by norm_num
  have key : (CalibrateC3 adc_ s).1.calibration_data_.pitch_scale < -48 := by
    revert h
    unfold CalibrateC3
    simp only [hz, gt_iff_lt]
    split_ifs with hd
    · intro _
      have e : (24.0 : ℚ) = 24 := by norm_num
      simp only [e]
      rw [div_lt_iff_of_neg hd.2]
      have := hd.1
      norm_num at this
      linarith
    · intro hf
      exact absurd hf (by simp)
  exact ⟨key, by linarith⟩

/-- C19 at the calibration points 0.6488 and 0.3640: the call succeeds and the
stored scale is below -48. -/
theorem C19_committed_scale_below_minus_48_witness :
    (CalibrateC3 (adc_const 0.3640) (CalibrateC1 (adc_const 0.6488) scaler0)).2 = true ∧
    (CalibrateC3 (adc_const 0.3640)
      (CalibrateC1 (adc_const 0.6488) scaler0)).1.calibration_data_.pitch_scale < -48 := by
  have h : (CalibrateC3 (adc_const 0.3640) (CalibrateC1 (adc_const 0.6488) scaler0)).2 = true := by
    norm_num [CalibrateC3, CalibrateC1, adc_const]
  exact ⟨h, (C19_committed_scale_below_minus_48 (adc_const 0.3640)
    (CalibrateC1 (adc_const 0.6488) scaler0) h).1⟩

/-- The acquisition loop reads the calibration record through its offset array
only. -/
theorem smooth_loop_offset_congr (CV_FLIP : Bool) (adc_ : Adc) (pots_adc_ : PotsAdc)
    (cal1 cal2 : CalibrationData) (h : cal1.offset = cal2.offset) (n : ℕ) (sm : ℕ → ℚ) :
    smooth_loop CV_FLIP adc_ pots_adc_ cal1 n sm = smooth_loop CV_FLIP adc_ pots_adc_ cal2 n sm := by
  funext i
  rw [smooth_loop_apply, smooth_loop_apply]
  simp only [transformed_value, h]

/-- `Read` from a state whose calibration record has the same offsets. -/
theorem Read_calibration_congr (CV_FLIP : Bool) (lut : ℕ → ℚ) (adc_ : Adc) (pots_adc_ : PotsAdc)
    (gate_input_ : GateInput) (s : CvScaler) (parameters : Parameters) (cal : CalibrationData)
    (h : cal.offset = s.calibration_data_.offset) :
    (Read CV_FLIP lut adc_ pots_adc_ gate_input_ { s with calibration_data_ := cal }
      parameters).2 = (Read CV_FLIP lut adc_ pots_adc_ gate_input_ s parameters).2 ∧
    (Read CV_FLIP lut adc_ pots_adc_ gate_input_ { s with calibration_data_ := cal }
      parameters).1 =
      { (Read CV_FLIP lut adc_ pots_adc_ gate_input_ s parameters).1 with
        calibration_data_ := cal } := by
  have hl := smooth_loop_offset_congr CV_FLIP adc_ pots_adc_ cal s.calibration_data_ h
    ADC_CHANNELS_TOTAL s.smoothed_adc_value_
  simp only [Read, hl, and_self]

/-- C20: `Read` does not depend on the V/oct fit.  From two states that differ
only in `pitch_scale` and `pitch_offset` of the calibration record, on the same
driver readings and incoming `Parameters`, `Read` emits the same `Parameters`
(the same pitch in particular) and leaves the same state, the calibration record
itself being carried over unchanged; so a `Read` after `CalibrateC3` emits what
it would have emitted before it. -/
theorem C20_Read_ignores_voct_fit (CV_FLIP : Bool) (lut : ℕ → ℚ) (adc_ adc3 : Adc)
    (pots_adc_ : PotsAdc) (gate_input_ : GateInput) (s : CvScaler) (parameters : Parameters)
    (scale offset : ℚ) :
    (Read CV_FLIP lut adc_ pots_adc_ gate_input_
        { s with
          calibration_data_ :=
            { s.calibration_data_ with pitch_scale := scale, pitch_offset := offset } }
        parameters).2 =
      (Read CV_FLIP lut adc_ pots_adc_ gate_input_ s parameters).2 ∧
    (Read CV_FLIP lut adc_ pots_adc_ gate_input_
        { s with
          calibration_data_ :=
            { s.calibration_data_ with pitch_scale := scale, pitch_offset := offset } }
        parameters).1 =
      { (Read CV_FLIP lut adc_ pots_adc_ gate_input_ s parameters).1 with
        calibration_data_ :=
          { s.calibration_data_ with pitch_scale := scale, pitch_offset := offset } } ∧
    (Read CV_FLIP lut adc_ pots_adc_ gate_input_ s parameters).1.calibration_data_ =
      s.calibration_data_ ∧
    (Read CV_FLIP lut adc_ pots_adc_ gate_input_ (CalibrateC3 adc3 s).1 parameters).2 =
      (Read CV_FLIP lut adc_ pots_adc_ gate_input_ s parameters).2 := by
  have h := Read_calibration_congr CV_FLIP lut adc_ pots_adc_ gate_input_ s parameters
    { s.calibration_data_ with pitch_scale := scale, pitch_offset := offset } rfl
  refine ⟨h.1, h.2, rfl, ?_⟩
  have hc : (CalibrateC3 adc3 s).1 =
      { s with
        calibration_data_ :=
          { s.calibration_data_ with
            pitch_scale := (CalibrateC3 adc3 s).1.calibration_data_.pitch_scale
            pitch_offset := (CalibrateC3 adc3 s).1.calibration_data_.pitch_offset } } := by
    unfold CalibrateC3
    simp only []
    split_ifs <;> rfl
  rw [hc]
  exact (Read_calibration_congr CV_FLIP lut adc_ pots_adc_ gate_input_ s parameters
    { s.calibration_data_ with
      pitch_scale := (CalibrateC3 adc3 s).1.calibration_data_.pitch_scale
      pitch_offset := (CalibrateC3 adc3 s).1.calibration_data_.pitch_offset } rfl).1

/-! ## C21: the quantized note settles -/

theorem run_voct_flags (CV_FLIP : Bool) (lut : ℕ → ℚ) (adc : ℕ → Adc) (pots : ℕ → PotsAdc)
    (gate : ℕ → GateInput) (s : CvScaler) (p : Parameters) (n : ℕ) :
    (run CV_FLIP lut adc pots gate s p n).1.voct_cv_quantized_ = s.voct_cv_quantized_ ∧
    (run CV_FLIP lut adc pots gate s p n).1.voct_cv_used_ = s.voct_cv_used_ := by
  induction n with
  | zero => exact ⟨rfl, rfl⟩
  | succ n ih => rw [run_succ]; exact ih

/-- The tracking step with tracking on, dejitter off and the V/oct value above
the deadband. -/
theorem track_note_tracking (sm : ℕ → ℚ) (n : ℚ) (hv : 0.002 < sm ADC_VOCT_CV) :
    track_note true false sm n =
      if 1 / 2 < |sm ADC_VOCT_CV * 60 - 24 - n| then sm ADC_VOCT_CV * 60 - 24
      else n + 1 / 5 * (sm ADC_VOCT_CV * 60 - 24 - n) := by
  have e5 : (0.5 : ℚ) = 1 / 2 := by norm_num
  have e2 : (0.2 : ℚ) = 1 / 5 := by norm_num
  simp only [track_note, gt_iff_lt, hv, decide_True, Bool.and_self, if_true, Bool.not_false,
    ONE_POLE, e5, e2]

/-- With the pitch pot at 0, a value within 1/2 of an integer quantizes to that
integer. -/
theorem quantize_note_zero_near_int (x : ℚ) (z : ℤ) (h : |x - z| < 1 / 2) :
    quantize_note 0 x = (z : ℚ) := by
  rw [abs_lt] at h
  by_cases hx : x < 0
  · have hneg : x - (0.5 - 0 * 0.5) < 0 := by norm_num; linarith
    have hc : ⌈x - (0.5 - 0 * 0.5)⌉ = z := by
      rw [Int.ceil_eq_iff]
      constructor <;> norm_num <;> linarith
    rw [quantize_note_neg _ _ hx, int_cast_of_neg _ hneg, hc]
  · have hx' : 0 ≤ x := not_lt.mp hx
    have hpos : 0 ≤ x + (0.5 + 0 * 0.5) := by norm_num; linarith
    have hf : ⌊x + (0.5 + 0 * 0.5)⌋ = z := by
      rw [Int.floor_eq_iff]
      constructor <;> norm_num <;> linarith
    rw [quantize_note_nonneg _ _ hx', int_cast_of_nonneg _ hpos, hf]

/-- With the pitch pot at 0, the quantized note is an integer within 1/2 of the
value quantized. -/
theorem quantize_note_zero_close (x : ℚ) :
    ∃ z : ℤ, quantize_note 0 x = (z : ℚ) ∧ |x - z| ≤ 1 / 2 := by
  by_cases hx : x < 0
  · have hneg : x - (0.5 - 0 * 0.5) < 0 := by norm_num; linarith
    refine ⟨⌈x - (0.5 - 0 * 0.5)⌉, ?_, ?_⟩
    · rw [quantize_note_neg _ _ hx, int_cast_of_neg _ hneg]
    · have e : x - (0.5 - 0 * 0.5) = x - 1 / 2 := by norm_num
      rw [e]
      have h1 := Int.le_ceil (x - 1 / 2)
      have h2 := Int.ceil_lt_add_one (x - 1 / 2)
      rw [abs_le]
      constructor <;> linarith
  · have hx' : 0 ≤ x := not_lt.mp hx
    have hpos : 0 ≤ x + (0.5 + 0 * 0.5) := by norm_num; linarith
    refine ⟨⌊x + (0.5 + 0 * 0.5)⌋, ?_, ?_⟩
    · rw [quantize_note_nonneg _ _ hx', int_cast_of_nonneg _ hpos]
    · have e : x + (0.5 + 0 * 0.5) = x + 1 / 2 := by norm_num
      rw [e]
      have h1 := Int.floor_le (x + 1 / 2)
      have h2 := Int.lt_floor_add_one (x + 1 / 2)
      rw [abs_le]
      constructor <;> linarith

/-- An integer note within 1/2 of the target `60 v - 24` is a fixed point of one
tracking-and-quantization step. -/
theorem note_step_fixed (sm : ℕ → ℚ) (hv : 0.002 < sm ADC_VOCT_CV) (z : ℤ)
    (h : |sm ADC_VOCT_CV * 60 - 24 - z| ≤ 1 / 2) :
    quantize_note 0 (track_note true false sm z) = (z : ℚ) := by
  rw [track_note_tracking sm _ hv, if_neg (not_lt.mpr h)]
  apply quantize_note_zero_near_int
  have e : (z : ℚ) + 1 / 5 * (sm ADC_VOCT_CV * 60 - 24 - z) - z =
      1 / 5 * (sm ADC_VOCT_CV * 60 - 24 - z) := by ring
  rw [e, abs_mul, abs_of_pos (by norm_num : (0 : ℚ) < 1 / 5)]
  linarith

/-- One tracking-and-quantization step from an integer note lands on an integer
within 1/2 of the target `60 v - 24`. -/
theorem note_step_from_int (sm : ℕ → ℚ) (hv : 0.002 < sm ADC_VOCT_CV) (z : ℤ) :
    ∃ z' : ℤ, quantize_note 0 (track_note true false sm z) = (z' : ℚ) ∧
      |sm ADC_VOCT_CV * 60 - 24 - z'| ≤ 1 / 2 := by
  by_cases h : 1 / 2 < |sm ADC_VOCT_CV * 60 - 24 - z|
  · rw [track_note_tracking sm _ hv, if_pos h]
    exact quantize_note_zero_close _
  · exact ⟨z, note_step_fixed sm hv z (not_lt.mp h), not_lt.mp h⟩

/-- One `Read` of a run in quantized mode with tracking on and dejitter off,
leaving the smoothed V/oct value at `v` and the smoothed pitch pot at 0: the
stored note is the quantization of the tracked note, and the pitch is that note
clamped. -/
theorem run_quantized_note_step (CV_FLIP : Bool) (lut : ℕ → ℚ) (adc : ℕ → Adc)
    (pots : ℕ → PotsAdc) (gate : ℕ → GateInput) (s : CvScaler) (p : Parameters) (v : ℚ)
    (hq : s.voct_cv_quantized_ = true) (hu : s.voct_cv_used_ = true)
    (hd : s.voct_cv_dejittered_ = false) (n : ℕ)
    (hsm : (run CV_FLIP lut adc pots gate s p (n + 1)).1.smoothed_adc_value_ ADC_VOCT_CV = v)
    (hpot : (run CV_FLIP lut adc pots gate s p (n + 1)).1.smoothed_adc_value_ pitch_pot = 0) :
    (run CV_FLIP lut adc pots gate s p (n + 1)).1.note_ =
      quantize_note 0
        (track_note true false (fun _ => v) (run CV_FLIP lut adc pots gate s p n).1.note_) ∧
    (run CV_FLIP lut adc pots gate s p (n + 1)).2.pitch =
      CONSTRAIN (run CV_FLIP lut adc pots gate s p (n + 1)).1.note_ (-48) 48 := by
  have hf := run_voct_flags CV_FLIP lut adc pots gate s p n
  have hdj := run_voct_cv_dejittered CV_FLIP lut adc pots gate s p n
  have hq' : (run CV_FLIP lut adc pots gate s p n).1.voct_cv_quantized_ = true := by
    rw [hf.1]; exact hq
  have h := Read_note_quantized CV_FLIP lut (adc n) (pots n) (gate n)
    (run CV_FLIP lut adc pots gate s p n).1 (run CV_FLIP lut adc pots gate s p n).2 hq'
  rw [run_succ] at hsm hpot ⊢
  have ht := track_note_congr true false _ (fun _ => v)
    (run CV_FLIP lut adc pots gate s p n).1.note_ hsm
  rw [hpot, hf.2, hu, hdj, hd, ht] at h
  refine ⟨h.1, ?_⟩
  rw [h.2]
  norm_num

/-- C21: with `voct_cv_quantized_` and `voct_cv_used_` set, dejitter off, and
every `Read` of the run leaving the smoothed pitch pot at 0 and the smoothed
V/oct value at the same `v > 0.002`, for every initial state (hence every
initial persistent note) the pitch emitted by the `k`-th `Read` equals the pitch
emitted by the second `Read` for every `k ≥ 2`; the stored note is from then on
the same integer. -/
theorem C21_quantized_pitch_settles (CV_FLIP : Bool) (lut : ℕ → ℚ) (adc : ℕ → Adc)
    (pots : ℕ → PotsAdc) (gate : ℕ → GateInput) (s : CvScaler) (p : Parameters) (v : ℚ)
    (hq : s.voct_cv_quantized_ = true) (hu : s.voct_cv_used_ = true)
    (hd : s.voct_cv_dejittered_ = false) (hv : 0.002 < v)
    (hsm : ∀ n, (run CV_FLIP lut adc pots gate s p (n + 1)).1.smoothed_adc_value_ ADC_VOCT_CV = v)
    (hpot : ∀ n, (run CV_FLIP lut adc pots gate s p (n + 1)).1.smoothed_adc_value_ pitch_pot = 0)
    (k : ℕ) (hk : 2 ≤ k) :
    (run CV_FLIP lut adc pots gate s p k).2.pitch =
      (run CV_FLIP lut adc pots gate s p 2).2.pitch ∧
    (run CV_FLIP lut adc pots gate s p k).1.note_ =
      (run CV_FLIP lut adc pots gate s p 2).1.note_ ∧
    ∃ z : ℤ, (run CV_FLIP lut adc pots gate s p 2).1.note_ = (z : ℚ) := by
  have step := fun n => run_quantized_note_step CV_FLIP lut adc pots gate s p v hq hu hd n
    (hsm n) (hpot n)
  have hv' : (0.002 : ℚ) < (fun _ : ℕ => v) ADC_VOCT_CV := hv
  obtain ⟨z1, hz1, _⟩ := quantize_note_zero_close
    (track_note true false (fun _ => v) (run CV_FLIP lut adc pots gate s p 0).1.note_)
  have h1 : (run CV_FLIP lut adc pots gate s p 1).1.note_ = (z1 : ℚ) := by
    rw [(step 0).1, hz1]
  obtain ⟨z2, hz2, hclose⟩ := note_step_from_int (fun _ => v) hv' z1
  have h2 : (run CV_FLIP lut adc pots gate s p 2).1.note_ = (z2 : ℚ) := by
    rw [(step 1).1, h1, hz2]
  have hall : ∀ m, (run CV_FLIP lut adc pots gate s p (2 + m)).1.note_ = (z2 : ℚ) := by
    intro m
    induction m with
    | zero => exact h2
    | succ m ih =>
      have e : 2 + (m + 1) = (2 + m) + 1 := by omega
      rw [e, (step (2 + m)).1, ih]
      exact note_step_fixed (fun _ => v) hv' z2 hclose
  obtain ⟨m, rfl⟩ : ∃ m, k = 2 + m := ⟨k - 2, by omega⟩
  have hn : (run CV_FLIP lut adc pots gate s p (2 + m)).1.note_ =
      (run CV_FLIP lut adc pots gate s p 2).1.note_ := by
    rw [hall m, h2]
  refine ⟨?_, hn, z2, h2⟩
  have e : 2 + m = (1 + m) + 1 := by omega
  have hp := (step (1 + m)).2
  rw [← e] at hp
  rw [hp, (step 1).2, hn]

/-- The smoothed V/oct value and pitch pot along a run from `scaler_quantized n0`
in the default build, with every CV channel reading `v` and every pot reading
0. -/
theorem run_scaler_quantized_smoothed (lut : ℕ → ℚ) (v n0 : ℚ) (n : ℕ) :
    (run false lut (fun _ => adc_const v) (fun _ => pots_const 0) (fun _ => gate_idle)
      (scaler_quantized n0) parameters0 (n + 1)).1.smoothed_adc_value_ ADC_VOCT_CV = v ∧
    (run false lut (fun _ => adc_const v) (fun _ => pots_const 0) (fun _ => gate_idle)
      (scaler_quantized n0) parameters0 n).1.smoothed_adc_value_ pitch_pot = 0 := by
  have hdj : ∀ m, (run false lut (fun _ => adc_const v) (fun _ => pots_const 0)
      (fun _ => gate_idle) (scaler_quantized n0) parameters0 m).1.voct_cv_dejittered_ = false := by
    intro m
    rw [run_voct_cv_dejittered]
    rfl
  constructor
  · rw [run_succ, Read_smoothed _ _ _ _ _ _ _ _ (by decide) (Or.inl (hdj n))]
    norm_num [transformed_value, transformation, transformations_, raw_value, adc_const]
  · induction n with
    | zero => rfl
    | succ n ih =>
      rw [run_succ, Read_smoothed _ _ _ _ _ _ _ _ (by decide) (Or.inl (hdj n)), ih]
      norm_num [transformed_value, transformation, transformations_, raw_value, pots_const]

/-- C21 on a run from the quantized state with initial note 9/10 and constant
V/oct reading 163/400 (target `60 v - 24 = 0.45`): the seventh `Read` emits the
pitch of the second. -/
theorem C21_quantized_pitch_settles_witness :
    (scaler_quantized (9 / 10)).voct_cv_quantized_ = true ∧
    (scaler_quantized (9 / 10)).voct_cv_used_ = true ∧
    (scaler_quantized (9 / 10)).voct_cv_dejittered_ = false ∧
    (0.002 : ℚ) < 163 / 400 ∧
    (run false (fun _ => 0) (fun _ => adc_const (163 / 400)) (fun _ => pots_const 0)
      (fun _ => gate_idle) (scaler_quantized (9 / 10)) parameters0 7).2.pitch =
      (run false (fun _ => 0) (fun _ => adc_const (163 / 400)) (fun _ => pots_const 0)
        (fun _ => gate_idle) (scaler_quantized (9 / 10)) parameters0 2).2.pitch :=
  ⟨rfl, rfl, rfl, by norm_num,
    (C21_quantized_pitch_settles false (fun _ => 0) (fun _ => adc_const (163 / 400))
      (fun _ => pots_const 0) (fun _ => gate_idle) (scaler_quantized (9 / 10)) parameters0
      (163 / 400) rfl rfl rfl (by norm_num)
      (fun n => (run_scaler_quantized_smoothed (fun _ => 0) (163 / 400) (9 / 10) n).1)
      (fun n => (run_scaler_quantized_smoothed (fun _ => 0) (163 / 400) (9 / 10) (n + 1)).2)
      7 (by decide)).1⟩

end clouds
